import Mathlib

/-
Verification of the pharmacy data store schema defined in
src/src-tauri/src/lib.rs (SQLite migrations registered by `run`).

The schema is shallowly embedded: each table becomes a Lean structure
(one field per column; NOT NULL columns get plain types, nullable ones
Option), the database state is a record of optional row lists (a table
that was not yet created is `none`, an empty created table is `some []`),
and each SQL write becomes an explicit Lean function returning
`Except DbError DB`, enforcing the table's CHECK, UNIQUE/PRIMARY KEY and
FOREIGN KEY constraints exactly as declared in the migration SQL
(PRAGMA foreign_keys=ON, line 11 of the source; no ON DELETE action is
declared, so parent deletes restrict).  Monetary INTEGER columns are Int
(paise), ids are Nat, REAL tax rates are Rat.  `datetime(now)`
defaults are modelled by an explicit `now : String` argument.  Indexes
and PRAGMA statements carry no state that the claims mention and are
noted where the migrations run them.
-/

namespace Pharma

/-- Errors surfaced by the store: SQLite constraint classes plus the
validation and stock errors of the spec's error taxonomy. -/
inductive DbError where
  | noSuchTable
  | checkViolation
  | uniqueViolation
  | fkViolation
  | notFound
  | validation
  | insufficientStock
deriving DecidableEq

/-- Row of `users` (source lines 13-22). -/
structure UserRow where
  id : Nat
  username : String
  password_hash : String
  full_name : String
  role : String
  is_active : Int
  created_at : String
  updated_at : String
deriving DecidableEq

/-- Row of `gst_slabs` (source lines 24-28). -/
structure GstSlab where
  id : Nat
  rate : Rat
  description : String
deriving DecidableEq

/-- Row of `medicines` (source lines 30-46). -/
structure Medicine where
  id : Nat
  name : String
  generic_name : Option String
  brand_name : Option String
  manufacturer : Option String
  dosage_form : String
  strength : Option String
  category : Option String
  hsn_code : String
  gst_slab_id : Nat
  reorder_level : Int
  is_active : Int
  created_at : String
  updated_at : String
deriving DecidableEq

/-- Row of `batches` (source lines 48-65). -/
structure Batch where
  id : Nat
  medicine_id : Nat
  batch_number : String
  expiry_date : String
  cost_price_paise : Int
  mrp_paise : Int
  selling_price_paise : Int
  quantity : Int
  manufacturing_date : Option String
  created_at : String
deriving DecidableEq

/-- Row of `customers` (source lines 67-75). -/
structure Customer where
  id : Nat
  name : String
  phone : Option String
  email : Option String
  address : Option String
  created_at : String
  updated_at : String
deriving DecidableEq

/-- Row of `suppliers` (source lines 77-87). -/
structure Supplier where
  id : Nat
  name : String
  phone : Option String
  email : Option String
  address : Option String
  gst_in : Option String
  drug_license_no : Option String
  created_at : String
  updated_at : String
deriving DecidableEq

/-- Row of `supplier_payments` (source lines 89-99). -/
structure SupplierPayment where
  id : Nat
  supplier_id : Nat
  amount_paise : Int
  payment_date : String
  payment_mode : String
  reference : Option String
  notes : Option String
  created_at : String
deriving DecidableEq

/-- Row of `sales` (source lines 101-118). -/
structure Sale where
  id : Nat
  invoice_number : String
  customer_id : Option Nat
  user_id : Nat
  sale_date : String
  subtotal_paise : Int
  discount_paise : Int
  total_cgst_paise : Int
  total_sgst_paise : Int
  total_gst_paise : Int
  grand_total_paise : Int
  payment_mode : String
  notes : Option String
  created_at : String
deriving DecidableEq

/-- Row of `sale_items` (source lines 120-137). -/
structure SaleItem where
  id : Nat
  sale_id : Nat
  batch_id : Nat
  medicine_id : Nat
  quantity : Int
  unit_price_paise : Int
  discount_paise : Int
  taxable_amount_paise : Int
  cgst_rate : Rat
  cgst_amount_paise : Int
  sgst_rate : Rat
  sgst_amount_paise : Int
  total_paise : Int
deriving DecidableEq

/-- Row of `prescriptions` (source lines 139-150). -/
structure Prescription where
  id : Nat
  customer_id : Nat
  sale_id : Option Nat
  doctor_name : String
  rx_number : Option String
  prescription_date : String
  notes : Option String
  created_at : String
deriving DecidableEq

/-- Row of `pharmacy_settings` (source lines 152-167). -/
structure PharmacySettings where
  id : Nat
  name : String
  address : String
  phone : String
  email : Option String
  gstin : String
  drug_license_no : String
  state_code : String
  invoice_prefix : String
  next_invoice_number : Int
  low_stock_threshold : Int
  near_expiry_days : Int
  created_at : String
  updated_at : String
deriving DecidableEq

/-- The database state: one optional row list per table of the schema.
`none` means the table has not been created yet. -/
structure DB where
  users : Option (List UserRow)
  gst_slabs : Option (List GstSlab)
  medicines : Option (List Medicine)
  batches : Option (List Batch)
  customers : Option (List Customer)
  suppliers : Option (List Supplier)
  supplier_payments : Option (List SupplierPayment)
  sales : Option (List Sale)
  sale_items : Option (List SaleItem)
  prescriptions : Option (List Prescription)
  pharmacy_settings : Option (List PharmacySettings)
deriving DecidableEq

/-- The fresh database file: no table exists yet. -/
def DB.empty : DB :=
  { users := none, gst_slabs := none, medicines := none, batches := none,
    customers := none, suppliers := none, supplier_payments := none,
    sales := none, sale_items := none, prescriptions := none,
    pharmacy_settings := none }

/-- Rows of a possibly not-yet-created table. -/
def rowsOf {α : Type} (t : Option (List α)) : List α := t.getD []

/-- Does some row of `rs` carry key `i` under projection `f`
(used for PRIMARY KEY and FOREIGN KEY lookups)? -/
def hasId {α : Type} (f : α → Nat) (rs : List α) (i : Nat) : Bool :=
  rs.any (fun r => f r == i)

/-- Rowid allocation for an INSERT that does not supply the id column:
one more than the largest id present (matches SQLite on the states the
seeds run against; ignored inserts allocate nothing). -/
def autoId {α : Type} (f : α → Nat) (rs : List α) : Nat :=
  rs.foldl (fun m r => max m (f r)) 0 + 1

/-- INSERT INTO users: CHECK(role IN (admin, pharmacist, cashier)),
UNIQUE(username), PRIMARY KEY(id). -/
def insertUser (db : DB) (u : UserRow) : Except DbError DB :=
  match db.users with
  | none => .error .noSuchTable
  | some rs =>
    if ¬ (u.role = "admin" ∨ u.role = "pharmacist" ∨ u.role = "cashier") then
      .error .checkViolation
    else if hasId UserRow.id rs u.id then .error .uniqueViolation
    else if rs.any (fun r => r.username == u.username) then .error .uniqueViolation
    else .ok { db with users := some (rs ++ [u]) }

/-- INSERT INTO gst_slabs: UNIQUE(rate), PRIMARY KEY(id). -/
def insertGstSlab (db : DB) (g : GstSlab) : Except DbError DB :=
  match db.gst_slabs with
  | none => .error .noSuchTable
  | some rs =>
    if hasId GstSlab.id rs g.id then .error .uniqueViolation
    else if rs.any (fun r => r.rate == g.rate) then .error .uniqueViolation
    else .ok { db with gst_slabs := some (rs ++ [g]) }

/-- INSERT INTO medicines: FOREIGN KEY(gst_slab_id) REFERENCES gst_slabs(id),
PRIMARY KEY(id). -/
def insertMedicine (db : DB) (m : Medicine) : Except DbError DB :=
  match db.medicines with
  | none => .error .noSuchTable
  | some rs =>
    if hasId Medicine.id rs m.id then .error .uniqueViolation
    else if ¬ hasId GstSlab.id (rowsOf db.gst_slabs) m.gst_slab_id then .error .fkViolation
    else .ok { db with medicines := some (rs ++ [m]) }

/-- The five CHECK constraints of the batches table (source lines 60-64). -/
def batchChecks (b : Batch) : Prop :=
  b.selling_price_paise ≤ b.mrp_paise ∧ 0 ≤ b.cost_price_paise ∧
    0 < b.mrp_paise ∧ 0 < b.selling_price_paise ∧ 0 ≤ b.quantity

instance (b : Batch) : Decidable (batchChecks b) := by
  unfold batchChecks; infer_instance

/-- INSERT INTO batches: the five CHECK constraints,
FOREIGN KEY(medicine_id) REFERENCES medicines(id), PRIMARY KEY(id). -/
def insertBatch (db : DB) (b : Batch) : Except DbError DB :=
  match db.batches with
  | none => .error .noSuchTable
  | some rs =>
    if ¬ batchChecks b then .error .checkViolation
    else if hasId Batch.id rs b.id then .error .uniqueViolation
    else if ¬ hasId Medicine.id (rowsOf db.medicines) b.medicine_id then .error .fkViolation
    else .ok { db with batches := some (rs ++ [b]) }

/-- INSERT INTO customers: PRIMARY KEY(id). -/
def insertCustomer (db : DB) (c : Customer) : Except DbError DB :=
  match db.customers with
  | none => .error .noSuchTable
  | some rs =>
    if hasId Customer.id rs c.id then .error .uniqueViolation
    else .ok { db with customers := some (rs ++ [c]) }

/-- INSERT INTO suppliers: PRIMARY KEY(id). -/
def insertSupplier (db : DB) (s : Supplier) : Except DbError DB :=
  match db.suppliers with
  | none => .error .noSuchTable
  | some rs =>
    if hasId Supplier.id rs s.id then .error .uniqueViolation
    else .ok { db with suppliers := some (rs ++ [s]) }

/-- The payment_mode CHECK shared by supplier_payments and sales. -/
def paymentModeOk (m : String) : Prop :=
  m = "cash" ∨ m = "card" ∨ m = "upi" ∨ m = "credit"

instance (m : String) : Decidable (paymentModeOk m) := by
  unfold paymentModeOk; infer_instance

/-- INSERT INTO supplier_payments: CHECK(payment_mode),
FOREIGN KEY(supplier_id) REFERENCES suppliers(id), PRIMARY KEY(id). -/
def insertSupplierPayment (db : DB) (p : SupplierPayment) : Except DbError DB :=
  match db.supplier_payments with
  | none => .error .noSuchTable
  | some rs =>
    if ¬ paymentModeOk p.payment_mode then .error .checkViolation
    else if hasId SupplierPayment.id rs p.id then .error .uniqueViolation
    else if ¬ hasId Supplier.id (rowsOf db.suppliers) p.supplier_id then .error .fkViolation
    else .ok { db with supplier_payments := some (rs ++ [p]) }

/-- INSERT INTO sales: UNIQUE(invoice_number), CHECK(payment_mode),
FOREIGN KEY(customer_id) REFERENCES customers(id) (nullable),
FOREIGN KEY(user_id) REFERENCES users(id), PRIMARY KEY(id). -/
def insertSale (db : DB) (s : Sale) : Except DbError DB :=
  match db.sales with
  | none => .error .noSuchTable
  | some rs =>
    if ¬ paymentModeOk s.payment_mode then .error .checkViolation
    else if hasId Sale.id rs s.id then .error .uniqueViolation
    else if rs.any (fun r => r.invoice_number == s.invoice_number) then .error .uniqueViolation
    else if ¬ hasId UserRow.id (rowsOf db.users) s.user_id then .error .fkViolation
    else if ¬ s.customer_id.all (hasId Customer.id (rowsOf db.customers)) then .error .fkViolation
    else .ok { db with sales := some (rs ++ [s]) }

/-- INSERT INTO sale_items: only the three FOREIGN KEYs and the PRIMARY KEY;
the table declares no CHECK constraint on any numeric column. -/
def insertSaleItem (db : DB) (it : SaleItem) : Except DbError DB :=
  match db.sale_items with
  | none => .error .noSuchTable
  | some rs =>
    if hasId SaleItem.id rs it.id then .error .uniqueViolation
    else if ¬ hasId Sale.id (rowsOf db.sales) it.sale_id then .error .fkViolation
    else if ¬ hasId Batch.id (rowsOf db.batches) it.batch_id then .error .fkViolation
    else if ¬ hasId Medicine.id (rowsOf db.medicines) it.medicine_id then .error .fkViolation
    else .ok { db with sale_items := some (rs ++ [it]) }

/-- INSERT INTO prescriptions: FOREIGN KEY(customer_id) REFERENCES customers(id),
FOREIGN KEY(sale_id) REFERENCES sales(id) (nullable), PRIMARY KEY(id). -/
def insertPrescription (db : DB) (p : Prescription) : Except DbError DB :=
  match db.prescriptions with
  | none => .error .noSuchTable
  | some rs =>
    if hasId Prescription.id rs p.id then .error .uniqueViolation
    else if ¬ hasId Customer.id (rowsOf db.customers) p.customer_id then .error .fkViolation
    else if ¬ p.sale_id.all (hasId Sale.id (rowsOf db.sales)) then .error .fkViolation
    else .ok { db with prescriptions := some (rs ++ [p]) }

/-- INSERT INTO pharmacy_settings: CHECK(id = 1), PRIMARY KEY(id). -/
def insertSettings (db : DB) (s : PharmacySettings) : Except DbError DB :=
  match db.pharmacy_settings with
  | none => .error .noSuchTable
  | some rs =>
    if ¬ s.id = 1 then .error .checkViolation
    else if hasId PharmacySettings.id rs s.id then .error .uniqueViolation
    else .ok { db with pharmacy_settings := some (rs ++ [s]) }

/-- DELETE FROM gst_slabs WHERE id = i: restricted when a medicine
still references the slab (foreign_keys=ON, no ON DELETE action). -/
def deleteGstSlab (db : DB) (i : Nat) : Except DbError DB :=
  match db.gst_slabs with
  | none => .error .noSuchTable
  | some rs =>
    if ¬ hasId GstSlab.id rs i then .ok db
    else if hasId Medicine.gst_slab_id (rowsOf db.medicines) i then .error .fkViolation
    else .ok { db with gst_slabs := some (rs.filter (fun r => r.id != i)) }

/-- DELETE FROM medicines WHERE id = i: restricted when a batch or a
sale item still references the medicine. -/
def deleteMedicine (db : DB) (i : Nat) : Except DbError DB :=
  match db.medicines with
  | none => .error .noSuchTable
  | some rs =>
    if ¬ hasId Medicine.id rs i then .ok db
    else if hasId Batch.medicine_id (rowsOf db.batches) i then .error .fkViolation
    else if hasId SaleItem.medicine_id (rowsOf db.sale_items) i then .error .fkViolation
    else .ok { db with medicines := some (rs.filter (fun r => r.id != i)) }

/-- DELETE FROM batches WHERE id = i: restricted when a sale item still
references the batch. -/
def deleteBatch (db : DB) (i : Nat) : Except DbError DB :=
  match db.batches with
  | none => .error .noSuchTable
  | some rs =>
    if ¬ hasId Batch.id rs i then .ok db
    else if hasId SaleItem.batch_id (rowsOf db.sale_items) i then .error .fkViolation
    else .ok { db with batches := some (rs.filter (fun r => r.id != i)) }

/-- DELETE FROM users WHERE id = i: restricted when a sale still
references the user. -/
def deleteUser (db : DB) (i : Nat) : Except DbError DB :=
  match db.users with
  | none => .error .noSuchTable
  | some rs =>
    if ¬ hasId UserRow.id rs i then .ok db
    else if hasId Sale.user_id (rowsOf db.sales) i then .error .fkViolation
    else .ok { db with users := some (rs.filter (fun r => r.id != i)) }

/-- DELETE FROM customers WHERE id = i: restricted when a sale or a
prescription still references the customer. -/
def deleteCustomer (db : DB) (i : Nat) : Except DbError DB :=
  match db.customers with
  | none => .error .noSuchTable
  | some rs =>
    if ¬ hasId Customer.id rs i then .ok db
    else if (rowsOf db.sales).any (fun s => s.customer_id == some i) then .error .fkViolation
    else if hasId Prescription.customer_id (rowsOf db.prescriptions) i then .error .fkViolation
    else .ok { db with customers := some (rs.filter (fun r => r.id != i)) }

/-- DELETE FROM suppliers WHERE id = i: restricted when a supplier
payment still references the supplier. -/
def deleteSupplier (db : DB) (i : Nat) : Except DbError DB :=
  match db.suppliers with
  | none => .error .noSuchTable
  | some rs =>
    if ¬ hasId Supplier.id rs i then .ok db
    else if hasId SupplierPayment.supplier_id (rowsOf db.supplier_payments) i then
      .error .fkViolation
    else .ok { db with suppliers := some (rs.filter (fun r => r.id != i)) }

/-- DELETE FROM sales WHERE id = i: restricted when a sale item or a
prescription still references the sale. -/
def deleteSale (db : DB) (i : Nat) : Except DbError DB :=
  match db.sales with
  | none => .error .noSuchTable
  | some rs =>
    if ¬ hasId Sale.id rs i then .ok db
    else if hasId SaleItem.sale_id (rowsOf db.sale_items) i then .error .fkViolation
    else if (rowsOf db.prescriptions).any (fun p => p.sale_id == some i) then .error .fkViolation
    else .ok { db with sales := some (rs.filter (fun r => r.id != i)) }

/-- DELETE FROM supplier_payments WHERE id = i (no child table). -/
def deleteSupplierPayment (db : DB) (i : Nat) : Except DbError DB :=
  match db.supplier_payments with
  | none => .error .noSuchTable
  | some rs => .ok { db with supplier_payments := some (rs.filter (fun r => r.id != i)) }

/-- DELETE FROM sale_items WHERE id = i (no child table). -/
def deleteSaleItem (db : DB) (i : Nat) : Except DbError DB :=
  match db.sale_items with
  | none => .error .noSuchTable
  | some rs => .ok { db with sale_items := some (rs.filter (fun r => r.id != i)) }

/-- DELETE FROM prescriptions WHERE id = i (no child table). -/
def deletePrescription (db : DB) (i : Nat) : Except DbError DB :=
  match db.prescriptions with
  | none => .error .noSuchTable
  | some rs => .ok { db with prescriptions := some (rs.filter (fun r => r.id != i)) }

/-- DELETE FROM pharmacy_settings WHERE id = i (no child table). -/
def deleteSettings (db : DB) (i : Nat) : Except DbError DB :=
  match db.pharmacy_settings with
  | none => .error .noSuchTable
  | some rs => .ok { db with pharmacy_settings := some (rs.filter (fun r => r.id != i)) }

/-- UPDATE batches SET ... WHERE id = i, the new row value being `b`:
re-checks the five CHECK constraints, the medicine FOREIGN KEY, the
PRIMARY KEY when the id changes, and restricts an id change while a
sale item still references the old id (foreign_keys=ON, NO ACTION). -/
def updateBatch (db : DB) (i : Nat) (b : Batch) : Except DbError DB :=
  match db.batches with
  | none => .error .noSuchTable
  | some rs =>
    if ¬ hasId Batch.id rs i then .ok db
    else if ¬ batchChecks b then .error .checkViolation
    else if ¬ hasId Medicine.id (rowsOf db.medicines) b.medicine_id then .error .fkViolation
    else if ¬ b.id = i ∧ hasId Batch.id rs b.id then .error .uniqueViolation
    else if ¬ b.id = i ∧ hasId SaleItem.batch_id (rowsOf db.sale_items) i then
      .error .fkViolation
    else .ok { db with batches := some (rs.map (fun r => if r.id = i then b else r)) }

/-- Migration version 1 "create initial schema" (source lines 6-181):
PRAGMA journal_mode=WAL and PRAGMA foreign_keys=ON carry no table state,
every CREATE TABLE uses IF NOT EXISTS (an existing table with its rows
is kept, a missing one is created empty), and the ten CREATE INDEX
IF NOT EXISTS statements add no row state. -/
def migration1 (db : DB) : DB :=
  { users := some (rowsOf db.users),
    gst_slabs := some (rowsOf db.gst_slabs),
    medicines := some (rowsOf db.medicines),
    batches := some (rowsOf db.batches),
    customers := some (rowsOf db.customers),
    suppliers := some (rowsOf db.suppliers),
    supplier_payments := some (rowsOf db.supplier_payments),
    sales := some (rowsOf db.sales),
    sale_items := some (rowsOf db.sale_items),
    prescriptions := some (rowsOf db.prescriptions),
    pharmacy_settings := some (rowsOf db.pharmacy_settings) }

/-- INSERT OR IGNORE INTO gst_slabs (rate, description): a row whose rate
already exists (UNIQUE rate) is silently skipped; otherwise the row is
inserted with an allocated id. -/
def seedSlabRow (rs : List GstSlab) (rate : Rat) (descr : String) : GstSlab :=
  { id := autoId GstSlab.id rs, rate := rate, description := descr }

def seedGstSlab (db : DB) (rate : Rat) (descr : String) : Except DbError DB :=
  match db.gst_slabs with
  | none => .error .noSuchTable
  | some rs =>
    if rs.any (fun r => r.rate == rate) then .ok db
    else .ok { db with gst_slabs := some (rs ++ [seedSlabRow rs rate descr]) }

/-- INSERT OR IGNORE INTO users (username, password_hash, full_name, role,
is_active): skipped when the username already exists (UNIQUE username) or
the role CHECK fails; created_at and updated_at take their
datetime(now) defaults. -/
def seedUserRow (rs : List UserRow) (username pwHash fullName role : String)
    (active : Int) (now : String) : UserRow :=
  { id := autoId UserRow.id rs, username := username,
    password_hash := pwHash, full_name := fullName, role := role,
    is_active := active, created_at := now, updated_at := now }

def seedUser (db : DB) (username pwHash fullName role : String) (active : Int)
    (now : String) : Except DbError DB :=
  match db.users with
  | none => .error .noSuchTable
  | some rs =>
    if rs.any (fun r => r.username == username) then .ok db
    else if ¬ (role = "admin" ∨ role = "pharmacist" ∨ role = "cashier") then .ok db
    else
      let rs' := rs ++ [seedUserRow rs username pwHash fullName role active now]
      .ok { db with users := some rs' }

/-- INSERT OR IGNORE INTO pharmacy_settings (id, name, address, phone,
gstin, drug_license_no, state_code): skipped when a row with the same id
exists (PRIMARY KEY) or the CHECK(id = 1) fails; the omitted columns take
their declared defaults — email NULL, invoice_prefix "INV",
next_invoice_number 1, low_stock_threshold 20, near_expiry_days 90,
timestamps datetime(now). -/
def seedSettingsRow (i : Nat) (nm addr ph gstin dl st now : String) :
    PharmacySettings :=
  { id := i, name := nm, address := addr, phone := ph,
    email := none, gstin := gstin, drug_license_no := dl, state_code := st,
    invoice_prefix := "INV", next_invoice_number := 1,
    low_stock_threshold := 20, near_expiry_days := 90,
    created_at := now, updated_at := now }

def seedSettings (db : DB) (i : Nat) (nm addr ph gstin dl st now : String) :
    Except DbError DB :=
  match db.pharmacy_settings with
  | none => .error .noSuchTable
  | some rs =>
    if hasId PharmacySettings.id rs i then .ok db
    else if ¬ i = 1 then .ok db
    else
      let rs' := rs ++ [seedSettingsRow i nm addr ph gstin dl st now]
      .ok { db with pharmacy_settings := some rs' }

/-- Migration version 2 "seed default data" (source lines 182-198): the
six INSERT OR IGNORE statements in source order. -/
def migration2 (now : String) (db : DB) : Except DbError DB := do
  let db ← seedGstSlab db 0 "GST Exempt (0%)"
  let db ← seedGstSlab db 5 "GST 5% (Most medicines post Sep 2025)"
  let db ← seedGstSlab db 12 "GST 12%"
  let db ← seedGstSlab db 18 "GST 18%"
  let db ← seedUser db "admin"
    "$2a$10$N9qo8uLOickgx2ZMRZoMyeIjZAgcfl7p92ldGxad68LJZdL17lhWy"
    "Administrator" "admin" 1 now
  seedSettings db 1 "My Pharmacy" "123 Main Street" "0000000000" "" "" "" now

/-- Rounding of a rational to the nearest integer, computed on the
numerator and denominator; `roundRat_eq_round` below shows it is
Mathlib's `round`. -/
def roundRat (q : Rat) : Int :=
  (2 * q.num + (q.den : Int)) / (2 * (q.den : Int))

/-- Modelled from the spec: the tax computation policy of section 4.1 —
`cgst_amount = round(taxable_amount * cgst_rate / 2 / 100)` with
rounding to the nearest integer paise; the business logic that computes
it is not part of src/. Here `rate` is the medicine's full GST slab rate
and the result is one half (CGST or SGST) of the tax;
`gstHalfAmount_eq_round` below shows this equals the spec's formula. -/
def gstHalfAmount (taxable : Int) (rate : Rat) : Int :=
  roundRat (Rat.divInt (taxable * rate.num) ((rate.den : Int) * 200))

/-- One half of a GST slab rate, as stored in the cgst_rate and
sgst_rate columns; `halfRate_eq` below shows it is `rate / 2`. -/
def halfRate (rate : Rat) : Rat :=
  Rat.divInt rate.num ((rate.den : Int) * 2)

/-- One requested line of a sale: the batch to sell from, the quantity
and the line discount (spec section 4.1, `recordSale(saleInput, items)`). -/
structure SaleLineInput where
  batch_id : Nat
  quantity : Int
  discount_paise : Int

/-- The sale-level inputs of `recordSale` (spec section 4.1). -/
structure SaleInput where
  customer_id : Option Nat
  user_id : Nat
  sale_date : String
  payment_mode : String
  notes : Option String

/-- Modelled from the spec: processing of one sale line inside
`recordSale` (section 4.1(c)-(d)), which is not part of src/. The line
must reference an existing batch with sufficient remaining quantity
(`InsufficientStockError` otherwise, checked against the not-yet-committed
working state); the unit price is the batch's selling price, the GST rate
is the medicine's slab rate split into equal CGST and SGST halves, and
the batch quantity is decremented by the sold amount.
`decBatch` is the UPDATE batches SET quantity = quantity - q WHERE id = i
that `recordSale` issues. -/
def decBatch (i : Nat) (q : Int) (r : Batch) : Batch :=
  if r.id = i then { r with quantity := r.quantity - q } else r

/-- The sale_items row computed for one line: unit price from the batch,
taxable amount = unit price times quantity minus discount, the slab rate
split into equal CGST/SGST halves, each tax half rounded to the nearest
paise, line total = taxable amount plus both tax halves. -/
def lineItem (saleId itemId : Nat) (l : SaleLineInput) (b : Batch) (g : GstSlab) :
    SaleItem :=
  { id := itemId, sale_id := saleId, batch_id := b.id,
    medicine_id := b.medicine_id, quantity := l.quantity,
    unit_price_paise := b.selling_price_paise,
    discount_paise := l.discount_paise,
    taxable_amount_paise := b.selling_price_paise * l.quantity - l.discount_paise,
    cgst_rate := halfRate g.rate,
    cgst_amount_paise :=
      gstHalfAmount (b.selling_price_paise * l.quantity - l.discount_paise) g.rate,
    sgst_rate := halfRate g.rate,
    sgst_amount_paise :=
      gstHalfAmount (b.selling_price_paise * l.quantity - l.discount_paise) g.rate,
    total_paise := b.selling_price_paise * l.quantity - l.discount_paise +
      gstHalfAmount (b.selling_price_paise * l.quantity - l.discount_paise) g.rate +
      gstHalfAmount (b.selling_price_paise * l.quantity - l.discount_paise) g.rate }

/-- Modelled from the spec: the per-line lookup, stock check, tax
computation and batch decrement of `recordSale` (section 4.1(c)-(d)). -/
def buildLine (db : DB) (saleId itemId : Nat) (l : SaleLineInput) :
    Except DbError (SaleItem × DB) :=
  match (rowsOf db.batches).find? (fun b => b.id == l.batch_id) with
  | none => .error .notFound
  | some b =>
    match (rowsOf db.medicines).find? (fun m => m.id == b.medicine_id) with
    | none => .error .notFound
    | some m =>
      match (rowsOf db.gst_slabs).find? (fun g => g.id == m.gst_slab_id) with
      | none => .error .notFound
      | some g =>
        if l.quantity ≤ 0 then .error .validation
        else if b.quantity < l.quantity then .error .insufficientStock
        else
          let bs := (rowsOf db.batches).map (decBatch b.id l.quantity)
          .ok (lineItem saleId itemId l b g, { db with batches := some bs })

/-- Modelled from the spec: the line loop of `recordSale` (not part of
src/), threading the working state through the lines and numbering the
new sale items consecutively. -/
def recordSaleLoop (saleId : Nat) :
    Nat → DB → List SaleLineInput → Except DbError (List SaleItem × DB)
  | _, db, [] => .ok ([], db)
  | itemId, db, l :: ls => do
    let (it, db1) ← buildLine db saleId itemId l
    let (its, db2) ← recordSaleLoop saleId (itemId + 1) db1 ls
    .ok (it :: its, db2)

/-- The computed sale items are stored through the schema-checked
sale_items INSERT, one row per line. -/
def insertSaleItems : DB → List SaleItem → Except DbError DB
  | db, [] => .ok db
  | db, it :: its => do
    let db1 ← insertSaleItem db it
    insertSaleItems db1 its

/-- Modelled from the spec: step (a) of `recordSale` increments
`PharmacySettings.next_invoice_number` after allocating from it
(section 4.1(a)); not part of src/. The counter bump on the singleton
row. -/
def bumpRow (now : String) (s : PharmacySettings) : PharmacySettings :=
  if s.id = 1 then
    { s with next_invoice_number := s.next_invoice_number + 1, updated_at := now }
  else s

def bumpInvoice (now : String) (db : DB) : Except DbError DB :=
  match db.pharmacy_settings with
  | none => .error .noSuchTable
  | some rs => .ok { db with pharmacy_settings := some (rs.map (bumpRow now)) }

/-- Modelled from the spec: `recordSale(saleInput, items)` (section 4.1),
which is not part of src/. Atomic: the invoice number is allocated from
the settings singleton using the configured prefix, the sale row is
inserted with the computed totals (subtotal = sum of unit price times
quantity, discount = sum of line discounts, CGST/SGST totals = sums of
the line halves, `total_gst = total_cgst + total_sgst`,
`grand_total = subtotal - discount + total_gst`), one sale item per line
is inserted, each batch is decremented, and the counter is incremented —
or, on any failure, the unchanged input state is the result (the
function only ever returns the fully committed state). A sale needs at
least one line (section 3). -/
def recordSale (now : String) (db : DB) (inp : SaleInput)
    (lines : List SaleLineInput) : Except DbError DB :=
  match (rowsOf db.pharmacy_settings).find? (fun s => s.id == 1) with
  | none => .error .notFound
  | some st =>
    if lines.isEmpty then .error .validation
    else
      let invoice := PharmacySettings.invoice_prefix st ++
        toString st.next_invoice_number
      let saleId := autoId Sale.id (rowsOf db.sales)
      let itemId0 := autoId SaleItem.id (rowsOf db.sale_items)
      do
        let (items, db1) ← recordSaleLoop saleId itemId0 db lines
        let subtotal := items.foldl (fun a it => a + it.unit_price_paise * it.quantity) 0
        let discount := items.foldl (fun a it => a + it.discount_paise) 0
        let totalC := items.foldl (fun a it => a + it.cgst_amount_paise) 0
        let totalS := items.foldl (fun a it => a + it.sgst_amount_paise) 0
        let sale : Sale :=
          { id := saleId, invoice_number := invoice,
            customer_id := inp.customer_id, user_id := inp.user_id,
            sale_date := inp.sale_date, subtotal_paise := subtotal,
            discount_paise := discount, total_cgst_paise := totalC,
            total_sgst_paise := totalS, total_gst_paise := totalC + totalS,
            grand_total_paise := subtotal - discount + (totalC + totalS),
            payment_mode := inp.payment_mode, notes := inp.notes,
            created_at := now }
        let db2 ← insertSale db1 sale
        let db3 ← insertSaleItems db2 items
        bumpInvoice now db3

/-- Modelled from the spec: the patch argument of `updateSettings`
(section 4.1) — each field optionally replaces the stored value of the
settings singleton. The invoice counter `next_invoice_number` is not in
the patch: the spec advances it only through the allocation
step of `recordSale` (section 4.1(a)). -/
structure SettingsPatch where
  name : Option String
  address : Option String
  phone : Option String
  email : Option (Option String)
  gstin : Option String
  drug_license_no : Option String
  state_code : Option String
  invoice_prefix : Option String
  low_stock_threshold : Option Int
  near_expiry_days : Option Int

/-- Applies a settings patch to the stored row, refreshing updated_at
(section 3: the data layer refreshes timestamps on every mutating update). -/
def applyPatch (now : String) (p : SettingsPatch) (s : PharmacySettings) :
    PharmacySettings :=
  { s with
    name := p.name.getD s.name,
    address := p.address.getD s.address,
    phone := p.phone.getD s.phone,
    email := p.email.getD s.email,
    gstin := p.gstin.getD s.gstin,
    drug_license_no := p.drug_license_no.getD s.drug_license_no,
    state_code := p.state_code.getD s.state_code,
    invoice_prefix := ( SettingsPatch.invoice_prefix p).getD ( PharmacySettings.invoice_prefix s),
    low_stock_threshold := p.low_stock_threshold.getD s.low_stock_threshold,
    near_expiry_days := p.near_expiry_days.getD s.near_expiry_days,
    updated_at := now }

/-- Modelled from the spec: `updateSettings(patch)` (section 4.1) —
singleton update of the row with id 1, which must already exist; it
never creates a row, so a second row can never appear through it. Not
part of src/. The patch is applied to the singleton row, other rows are
kept. -/
def patchRow (now : String) (p : SettingsPatch) (s : PharmacySettings) :
    PharmacySettings :=
  if s.id = 1 then applyPatch now p s else s

def updateSettings (now : String) (db : DB) (p : SettingsPatch) :
    Except DbError DB :=
  match db.pharmacy_settings with
  | none => .error .noSuchTable
  | some rs =>
    if ¬ hasId PharmacySettings.id rs 1 then .error .notFound
    else .ok { db with pharmacy_settings := some (rs.map (patchRow now p)) }

/-- The value of the invoice counter in the settings singleton
(0 when the singleton does not exist yet). -/
def nextInvoice (db : DB) : Int :=
  match (rowsOf db.pharmacy_settings).find? (fun s => s.id == 1) with
  | none => 0
  | some s => s.next_invoice_number

/-- One committed write against the store: either migration, any single
INSERT/DELETE the schema accepts, the batch UPDATE, or one of the
modelled application operations. Each constructor carries the proof
that the operation succeeded. -/
inductive Step : DB → DB → Prop where
  | m1 (db : DB) : Step db (migration1 db)
  | m2 (now : String) (db db' : DB) (h : migration2 now db = .ok db') : Step db db'
  | insUser (db db' : DB) (u : UserRow) (h : insertUser db u = .ok db') : Step db db'
  | insGstSlab (db db' : DB) (g : GstSlab) (h : insertGstSlab db g = .ok db') : Step db db'
  | insMedicine (db db' : DB) (m : Medicine) (h : insertMedicine db m = .ok db') : Step db db'
  | insBatch (db db' : DB) (b : Batch) (h : insertBatch db b = .ok db') : Step db db'
  | insCustomer (db db' : DB) (c : Customer) (h : insertCustomer db c = .ok db') : Step db db'
  | insSupplier (db db' : DB) (s : Supplier) (h : insertSupplier db s = .ok db') : Step db db'
  | insSupplierPayment (db db' : DB) (p : SupplierPayment)
      (h : insertSupplierPayment db p = .ok db') : Step db db'
  | insSale (db db' : DB) (s : Sale) (h : insertSale db s = .ok db') : Step db db'
  | insSaleItem (db db' : DB) (it : SaleItem) (h : insertSaleItem db it = .ok db') : Step db db'
  | insPrescription (db db' : DB) (p : Prescription)
      (h : insertPrescription db p = .ok db') : Step db db'
  | insSettings (db db' : DB) (s : PharmacySettings)
      (h : insertSettings db s = .ok db') : Step db db'
  | delGstSlab (db db' : DB) (i : Nat) (h : deleteGstSlab db i = .ok db') : Step db db'
  | delMedicine (db db' : DB) (i : Nat) (h : deleteMedicine db i = .ok db') : Step db db'
  | delBatch (db db' : DB) (i : Nat) (h : deleteBatch db i = .ok db') : Step db db'
  | delUser (db db' : DB) (i : Nat) (h : deleteUser db i = .ok db') : Step db db'
  | delCustomer (db db' : DB) (i : Nat) (h : deleteCustomer db i = .ok db') : Step db db'
  | delSupplier (db db' : DB) (i : Nat) (h : deleteSupplier db i = .ok db') : Step db db'
  | delSupplierPayment (db db' : DB) (i : Nat)
      (h : deleteSupplierPayment db i = .ok db') : Step db db'
  | delSale (db db' : DB) (i : Nat) (h : deleteSale db i = .ok db') : Step db db'
  | delSaleItem (db db' : DB) (i : Nat) (h : deleteSaleItem db i = .ok db') : Step db db'
  | delPrescription (db db' : DB) (i : Nat) (h : deletePrescription db i = .ok db') : Step db db'
  | delSettings (db db' : DB) (i : Nat) (h : deleteSettings db i = .ok db') : Step db db'
  | updBatch (db db' : DB) (i : Nat) (b : Batch) (h : updateBatch db i b = .ok db') : Step db db'
  | updSettings (now : String) (db db' : DB) (p : SettingsPatch)
      (h : updateSettings now db p = .ok db') : Step db db'
  | record (now : String) (db db' : DB) (inp : SaleInput) (ls : List SaleLineInput)
      (h : recordSale now db inp ls = .ok db') : Step db db'

/-- A database state reachable from the fresh file by committed writes. -/
def Reachable (db : DB) : Prop := Relation.ReflTransGen Step DB.empty db

/-- One committed write of the application layer of the spec (section
4.1): the migrations plus the operations the spec defines. Sales rows
are only written through `recordSale` (the spec gives a Sale no other
write path — section 4, "write-once"), the settings singleton is created
only by the migration seed and mutated only by `updateSettings` and the
invoice allocation, and rows of other tables may be inserted, deleted or
(for batches) updated freely. -/
inductive AppStep : DB → DB → Prop where
  | m1 (db : DB) : AppStep db (migration1 db)
  | m2 (now : String) (db db' : DB) (h : migration2 now db = .ok db') : AppStep db db'
  | insUser (db db' : DB) (u : UserRow) (h : insertUser db u = .ok db') : AppStep db db'
  | insGstSlab (db db' : DB) (g : GstSlab) (h : insertGstSlab db g = .ok db') : AppStep db db'
  | insMedicine (db db' : DB) (m : Medicine) (h : insertMedicine db m = .ok db') : AppStep db db'
  | insBatch (db db' : DB) (b : Batch) (h : insertBatch db b = .ok db') : AppStep db db'
  | insCustomer (db db' : DB) (c : Customer) (h : insertCustomer db c = .ok db') : AppStep db db'
  | insSupplier (db db' : DB) (s : Supplier) (h : insertSupplier db s = .ok db') : AppStep db db'
  | insSupplierPayment (db db' : DB) (p : SupplierPayment)
      (h : insertSupplierPayment db p = .ok db') : AppStep db db'
  | insPrescription (db db' : DB) (p : Prescription)
      (h : insertPrescription db p = .ok db') : AppStep db db'
  | delGstSlab (db db' : DB) (i : Nat) (h : deleteGstSlab db i = .ok db') : AppStep db db'
  | delMedicine (db db' : DB) (i : Nat) (h : deleteMedicine db i = .ok db') : AppStep db db'
  | delBatch (db db' : DB) (i : Nat) (h : deleteBatch db i = .ok db') : AppStep db db'
  | delUser (db db' : DB) (i : Nat) (h : deleteUser db i = .ok db') : AppStep db db'
  | delCustomer (db db' : DB) (i : Nat) (h : deleteCustomer db i = .ok db') : AppStep db db'
  | delSupplier (db db' : DB) (i : Nat) (h : deleteSupplier db i = .ok db') : AppStep db db'
  | delSupplierPayment (db db' : DB) (i : Nat)
      (h : deleteSupplierPayment db i = .ok db') : AppStep db db'
  | delSaleItem (db db' : DB) (i : Nat) (h : deleteSaleItem db i = .ok db') : AppStep db db'
  | delPrescription (db db' : DB) (i : Nat) (h : deletePrescription db i = .ok db') : AppStep db db'
  | updBatch (db db' : DB) (i : Nat) (b : Batch) (h : updateBatch db i b = .ok db') : AppStep db db'
  | updSettings (now : String) (db db' : DB) (p : SettingsPatch)
      (h : updateSettings now db p = .ok db') : AppStep db db'
  | record (now : String) (db db' : DB) (inp : SaleInput) (ls : List SaleLineInput)
      (h : recordSale now db inp ls = .ok db') : AppStep db db'

/-- A database state reachable from the fresh file through the
application layer of the spec. -/
def AppReachable (db : DB) : Prop := Relation.ReflTransGen AppStep DB.empty db

/-- Referential integrity: every declared FOREIGN KEY points at an
existing parent row (nullable references hold when NULL). -/
structure RefOk (db : DB) : Prop where
  med_slab : ∀ m ∈ rowsOf db.medicines,
    hasId GstSlab.id (rowsOf db.gst_slabs) m.gst_slab_id = true
  batch_med : ∀ b ∈ rowsOf db.batches,
    hasId Medicine.id (rowsOf db.medicines) b.medicine_id = true
  pay_sup : ∀ p ∈ rowsOf db.supplier_payments,
    hasId Supplier.id (rowsOf db.suppliers) p.supplier_id = true
  sale_user : ∀ s ∈ rowsOf db.sales,
    hasId UserRow.id (rowsOf db.users) s.user_id = true
  sale_cust : ∀ s ∈ rowsOf db.sales,
    s.customer_id.all (hasId Customer.id (rowsOf db.customers)) = true
  item_sale : ∀ it ∈ rowsOf db.sale_items,
    hasId Sale.id (rowsOf db.sales) it.sale_id = true
  item_batch : ∀ it ∈ rowsOf db.sale_items,
    hasId Batch.id (rowsOf db.batches) it.batch_id = true
  item_med : ∀ it ∈ rowsOf db.sale_items,
    hasId Medicine.id (rowsOf db.medicines) it.medicine_id = true
  rx_cust : ∀ p ∈ rowsOf db.prescriptions,
    hasId Customer.id (rowsOf db.customers) p.customer_id = true
  rx_sale : ∀ p ∈ rowsOf db.prescriptions,
    p.sale_id.all (hasId Sale.id (rowsOf db.sales)) = true

/-- The master store invariant maintained by every committed write:
the batches CHECK constraints, referential integrity, the settings
singleton shape, primary-key uniqueness of batch ids, and UNIQUE
invoice numbers. -/
structure Inv (db : DB) : Prop where
  batches_ok : ∀ b ∈ rowsOf db.batches, batchChecks b
  refs : RefOk db
  settings_len : (rowsOf db.pharmacy_settings).length ≤ 1
  settings_id : ∀ s ∈ rowsOf db.pharmacy_settings, s.id = 1
  batch_ids : ((rowsOf db.batches).map Batch.id).Nodup
  invoices : ((rowsOf db.sales).map Sale.invoice_number).Nodup

/-- The sale-totals consistency of spec section 8: every committed sales
row satisfies the two exact equations. -/
def SalesTotalsOk (db : DB) : Prop :=
  ∀ s ∈ rowsOf db.sales,
    s.grand_total_paise = s.subtotal_paise - s.discount_paise + s.total_gst_paise ∧
    s.total_gst_paise = s.total_cgst_paise + s.total_sgst_paise

/-- Concrete data of the spec's example scenario (section 8): the state
after both migrations run on a fresh file at time "t0". -/
def dbSeed : DB :=
  match migration2 "t0" (migration1 DB.empty) with
  | .ok d => d
  | .error _ => DB.empty

/-- The example medicine: slab id 2 is the seeded 5 percent slab. -/
def med1 : Medicine :=
  { id := 1, name := "Paracetamol 500mg", generic_name := none, brand_name := none,
    manufacturer := none, dosage_form := "tablet", strength := some "500mg",
    category := none, hsn_code := "3004", gst_slab_id := 2, reorder_level := 20,
    is_active := 1, created_at := "t1", updated_at := "t1" }

/-- The example batch: mrp 1000 paise, selling price 900, quantity 50. -/
def batch1 : Batch :=
  { id := 1, medicine_id := 1, batch_number := "B1", expiry_date := "2027-01-01",
    cost_price_paise := 700, mrp_paise := 1000, selling_price_paise := 900,
    quantity := 50, manufacturing_date := none, created_at := "t2" }

/-- The seed state plus the example medicine. -/
def dbMed : DB :=
  match insertMedicine dbSeed med1 with
  | .ok d => d
  | .error _ => DB.empty

/-- The seed state plus the example medicine and batch. -/
def dbBatch : DB :=
  match insertBatch dbMed batch1 with
  | .ok d => d
  | .error _ => DB.empty

/-- Sale-level input of the example sale, owned by the seeded admin user. -/
def inp1 : SaleInput :=
  { customer_id := none, user_id := 1, sale_date := "t3",
    payment_mode := "cash", notes := none }

/-- The example line: 10 units from batch 1 with no discount. -/
def line1 : SaleLineInput := { batch_id := 1, quantity := 10, discount_paise := 0 }

/-- A second line used for a follow-up sale: 5 more units of batch 1. -/
def line2 : SaleLineInput := { batch_id := 1, quantity := 5, discount_paise := 0 }

/-- The state after the example sale of 10 units. -/
def dbSale : DB :=
  match recordSale "t3" dbBatch inp1 [line1] with
  | .ok d => d
  | .error _ => DB.empty

/-- The state after a second sale of 5 units. -/
def dbSale2 : DB :=
  match recordSale "t4" dbSale inp1 [line2] with
  | .ok d => d
  | .error _ => DB.empty

/-- The sale row the example sale commits. -/
def sale1 : Sale :=
  { id := 1, invoice_number := "INV1", customer_id := none, user_id := 1,
    sale_date := "t3", subtotal_paise := 9000, discount_paise := 0,
    total_cgst_paise := 225, total_sgst_paise := 225, total_gst_paise := 450,
    grand_total_paise := 9450, payment_mode := "cash", notes := none,
    created_at := "t3" }

/-- The sale item computed for the example line (extracted from
`buildLine`; the fallback arm is never taken). -/
def item1 : SaleItem :=
  match buildLine dbBatch 1 1 line1 with
  | .ok (it, _) => it
  | .error _ =>
    { id := 0, sale_id := 0, batch_id := 0, medicine_id := 0, quantity := 0,
      unit_price_paise := 0, discount_paise := 0, taxable_amount_paise := 0,
      cgst_rate := 0, cgst_amount_paise := 0, sgst_rate := 0,
      sgst_amount_paise := 0, total_paise := 0 }

/-- The working state after the example line decrements the batch. -/
def dbLine1 : DB :=
  match buildLine dbBatch 1 1 line1 with
  | .ok (_, d) => d
  | .error _ => DB.empty

/-- A batch row violating the CHECK constraints (selling price 0). -/
def badBatch : Batch :=
  { id := 7, medicine_id := 1, batch_number := "BAD", expiry_date := "2027-01-01",
    cost_price_paise := 100, mrp_paise := 1000, selling_price_paise := 0,
    quantity := 5, manufacturing_date := none, created_at := "t5" }

/-- A sale_items row whose numeric columns are all out of the range the
Batch-style CHECKs would allow — the schema accepts it anyway. -/
def badItem : SaleItem :=
  { id := 99, sale_id := 1, batch_id := 1, medicine_id := 1, quantity := -1,
    unit_price_paise := -5, discount_paise := -2, taxable_amount_paise := -100,
    cgst_rate := 0, cgst_amount_paise := -1, sgst_rate := 0,
    sgst_amount_paise := -1, total_paise := -50 }

/-- A settings row with id 2: the CHECK(id = 1) rejects it. -/
def settings2 : PharmacySettings :=
  { id := 2, name := "Other", address := "", phone := "", email := none,
    gstin := "", drug_license_no := "", state_code := "",
    invoice_prefix := "X", next_invoice_number := 9,
    low_stock_threshold := 5, near_expiry_days := 30,
    created_at := "t6", updated_at := "t6" }

/-- The state after running only the settings seed INSERT on a freshly
created schema (used to exhibit the seeded defaults). -/
def dbSet : DB :=
  match seedSettings (migration1 DB.empty) 1 "My Pharmacy" "123 Main Street"
      "0000000000" "" "" "" "t0" with
  | .ok d => d
  | .error _ => DB.empty

/-- The settings row migration 2 seeds at time "t0". -/
def settings1 : PharmacySettings :=
  { id := 1, name := "My Pharmacy", address := "123 Main Street",
    phone := "0000000000", email := none, gstin := "", drug_license_no := "",
    state_code := "", invoice_prefix := "INV", next_invoice_number := 1,
    low_stock_threshold := 20, near_expiry_days := 90,
    created_at := "t0", updated_at := "t0" }

theorem hasId_iff {α : Type} (f : α → Nat) (rs : List α) (i : Nat) :
    hasId f rs i = true ↔ ∃ r ∈ rs, f r = i := by
  simp [hasId, List.any_eq_true]

theorem hasId_eq_false {α : Type} (f : α → Nat) (rs : List α) (i : Nat) :
    hasId f rs i = false ↔ ∀ r ∈ rs, f r ≠ i := by
  rw [← Bool.not_eq_true, hasId_iff]
  simp

theorem hasId_append {α : Type} (f : α → Nat) (rs ts : List α) (i : Nat)
    (h : hasId f rs i = true) : hasId f (rs ++ ts) i = true := by
  rw [hasId_iff] at h ⊢
  obtain ⟨r, hr, hfr⟩ := h
  exact ⟨r, List.mem_append_left ts hr, hfr⟩

theorem hasId_filter {α : Type} (f : α → Nat) (rs : List α) (i j : Nat)
    (h : hasId f rs j = true) (hne : j ≠ i) :
    hasId f (rs.filter (fun r => f r != i)) j = true := by
  rw [hasId_iff] at h ⊢
  obtain ⟨r, hr, hfr⟩ := h
  refine ⟨r, List.mem_filter.2 ⟨hr, ?_⟩, hfr⟩
  simp [hfr, hne]

theorem hasId_map_eq {α β : Type} (f : α → Nat) (g : β → Nat)
    (rs : List α) (ts : List β) (h : ts.map g = rs.map f) (i : Nat) :
    hasId g ts i = hasId f rs i := by
  rw [Bool.eq_iff_iff, hasId_iff, hasId_iff, ← List.mem_map (f := g), ← List.mem_map (f := f), h]

theorem optAll_mono {p q : Nat → Bool} (o : Option Nat)
    (h : ∀ j, p j = true → q j = true) (ho : o.all p = true) : o.all q = true := by
  cases o with
  | none => rfl
  | some j => exact h j ho

theorem roundRat_eq_round (q : ℚ) : roundRat q = round q := by
  have hd : (0 : ℤ) < (q.den : ℤ) := by exact_mod_cast q.den_pos
  have hq : q + 1 / 2 = ((2 * q.num + (q.den : ℤ) : ℤ) : ℚ) / ((2 * q.den : ℕ) : ℚ) := by
    conv_lhs => rw [← Rat.num_div_den q]
    have hden : ((q.den : ℚ)) ≠ 0 := by positivity
    push_cast
    field_simp
    ring
  rw [round_eq, roundRat, hq, Rat.floor_intCast_div_natCast]
  push_cast
  rfl

theorem gstHalfAmount_eq_round (t : Int) (r : ℚ) :
    gstHalfAmount t r = round ((t : ℚ) * r / 2 / 100) := by
  have hden : ((r.den : ℚ)) ≠ 0 := by
    have := r.den_pos
    positivity
  have hval : Rat.divInt (t * r.num) ((r.den : Int) * 200) = (t : ℚ) * r / 2 / 100 := by
    rw [Rat.divInt_eq_div]
    conv_rhs => rw [← Rat.num_div_den r]
    push_cast
    field_simp
    ring_nf
    simp
  rw [gstHalfAmount, hval, roundRat_eq_round]

theorem halfRate_eq (r : ℚ) : halfRate r = r / 2 := by
  have hden : ((r.den : ℚ)) ≠ 0 := by
    have := r.den_pos
    positivity
  rw [halfRate, Rat.divInt_eq_div]
  conv_rhs => rw [← Rat.num_div_den r]
  push_cast
  field_simp

theorem two_mul_halfRate (r : ℚ) : 2 * halfRate r = r := by
  rw [halfRate_eq]
  ring

theorem insertUser_ok {db db' : DB} {u : UserRow} (h : insertUser db u = .ok db') :
    ∃ rs, db.users = some rs ∧ db' = { db with users := some (rs ++ [u]) } := by
  cases hc : db.users with
  | none => simp [insertUser, hc] at h
  | some rs =>
    simp only [insertUser, hc] at h
    split at h
    · simp at h
    split at h
    · simp at h
    split at h
    · simp at h
    exact ⟨rs, rfl, by simpa [eq_comm] using h⟩

theorem insertGstSlab_ok {db db' : DB} {g : GstSlab} (h : insertGstSlab db g = .ok db') :
    ∃ rs, db.gst_slabs = some rs ∧ db' = { db with gst_slabs := some (rs ++ [g]) } := by
  cases hc : db.gst_slabs with
  | none => simp [insertGstSlab, hc] at h
  | some rs =>
    simp only [insertGstSlab, hc] at h
    split at h
    · simp at h
    split at h
    · simp at h
    exact ⟨rs, rfl, by simpa [eq_comm] using h⟩

theorem insertMedicine_ok {db db' : DB} {m : Medicine} (h : insertMedicine db m = .ok db') :
    ∃ rs, db.medicines = some rs ∧
      hasId GstSlab.id (rowsOf db.gst_slabs) m.gst_slab_id = true ∧
      db' = { db with medicines := some (rs ++ [m]) } := by
  cases hc : db.medicines with
  | none => simp [insertMedicine, hc] at h
  | some rs =>
    simp only [insertMedicine, hc] at h
    split at h
    · simp at h
    split at h
    · simp at h
    next hfk => exact ⟨rs, rfl, by simpa using hfk, by simpa [eq_comm] using h⟩

theorem insertBatch_ok {db db' : DB} {b : Batch} (h : insertBatch db b = .ok db') :
    ∃ rs, db.batches = some rs ∧ batchChecks b ∧
      hasId Batch.id rs b.id = false ∧
      hasId Medicine.id (rowsOf db.medicines) b.medicine_id = true ∧
      db' = { db with batches := some (rs ++ [b]) } := by
  cases hc : db.batches with
  | none => simp [insertBatch, hc] at h
  | some rs =>
    simp only [insertBatch, hc] at h
    split at h
    · simp at h
    next hchk =>
    split at h
    · simp at h
    next hdup =>
    split at h
    · simp at h
    next hfk =>
    exact ⟨rs, rfl, not_not.1 hchk, by simpa using hdup, by simpa using hfk,
      by simpa [eq_comm] using h⟩

theorem insertCustomer_ok {db db' : DB} {c : Customer} (h : insertCustomer db c = .ok db') :
    ∃ rs, db.customers = some rs ∧ db' = { db with customers := some (rs ++ [c]) } := by
  cases hc : db.customers with
  | none => simp [insertCustomer, hc] at h
  | some rs =>
    simp only [insertCustomer, hc] at h
    split at h
    · simp at h
    exact ⟨rs, rfl, by simpa [eq_comm] using h⟩

theorem insertSupplier_ok {db db' : DB} {s : Supplier} (h : insertSupplier db s = .ok db') :
    ∃ rs, db.suppliers = some rs ∧ db' = { db with suppliers := some (rs ++ [s]) } := by
  cases hc : db.suppliers with
  | none => simp [insertSupplier, hc] at h
  | some rs =>
    simp only [insertSupplier, hc] at h
    split at h
    · simp at h
    exact ⟨rs, rfl, by simpa [eq_comm] using h⟩

theorem insertSupplierPayment_ok {db db' : DB} {p : SupplierPayment}
    (h : insertSupplierPayment db p = .ok db') :
    ∃ rs, db.supplier_payments = some rs ∧
      hasId Supplier.id (rowsOf db.suppliers) p.supplier_id = true ∧
      db' = { db with supplier_payments := some (rs ++ [p]) } := by
  cases hc : db.supplier_payments with
  | none => simp [insertSupplierPayment, hc] at h
  | some rs =>
    simp only [insertSupplierPayment, hc] at h
    split at h
    · simp at h
    split at h
    · simp at h
    split at h
    · simp at h
    next hfk => exact ⟨rs, rfl, by simpa using hfk, by simpa [eq_comm] using h⟩

theorem insertSale_ok {db db' : DB} {s : Sale} (h : insertSale db s = .ok db') :
    ∃ rs, db.sales = some rs ∧
      (rs.any (fun r => r.invoice_number == s.invoice_number)) = false ∧
      hasId UserRow.id (rowsOf db.users) s.user_id = true ∧
      s.customer_id.all (hasId Customer.id (rowsOf db.customers)) = true ∧
      db' = { db with sales := some (rs ++ [s]) } := by
  cases hc : db.sales with
  | none => simp [insertSale, hc] at h
  | some rs =>
    simp only [insertSale, hc] at h
    split at h
    · simp at h
    split at h
    · simp at h
    split at h
    · simp at h
    next hinv =>
    split at h
    · simp at h
    next huser =>
    split at h
    · simp at h
    next hcust =>
    exact ⟨rs, rfl, by simpa using hinv, by simpa using huser, by simpa using hcust,
      by simpa [eq_comm] using h⟩

theorem insertSaleItem_ok {db db' : DB} {it : SaleItem}
    (h : insertSaleItem db it = .ok db') :
    ∃ rs, db.sale_items = some rs ∧
      hasId Sale.id (rowsOf db.sales) it.sale_id = true ∧
      hasId Batch.id (rowsOf db.batches) it.batch_id = true ∧
      hasId Medicine.id (rowsOf db.medicines) it.medicine_id = true ∧
      db' = { db with sale_items := some (rs ++ [it]) } := by
  cases hc : db.sale_items with
  | none => simp [insertSaleItem, hc] at h
  | some rs =>
    simp only [insertSaleItem, hc] at h
    split at h
    · simp at h
    split at h
    · simp at h
    next h1 =>
    split at h
    · simp at h
    next h2 =>
    split at h
    · simp at h
    next h3 =>
    exact ⟨rs, rfl, by simpa using h1, by simpa using h2, by simpa using h3,
      by simpa [eq_comm] using h⟩

theorem insertPrescription_ok {db db' : DB} {p : Prescription}
    (h : insertPrescription db p = .ok db') :
    ∃ rs, db.prescriptions = some rs ∧
      hasId Customer.id (rowsOf db.customers) p.customer_id = true ∧
      p.sale_id.all (hasId Sale.id (rowsOf db.sales)) = true ∧
      db' = { db with prescriptions := some (rs ++ [p]) } := by
  cases hc : db.prescriptions with
  | none => simp [insertPrescription, hc] at h
  | some rs =>
    simp only [insertPrescription, hc] at h
    split at h
    · simp at h
    split at h
    · simp at h
    next h1 =>
    split at h
    · simp at h
    next h2 =>
    exact ⟨rs, rfl, by simpa using h1, by simpa using h2, by simpa [eq_comm] using h⟩

theorem insertSettings_ok {db db' : DB} {s : PharmacySettings}
    (h : insertSettings db s = .ok db') :
    ∃ rs, db.pharmacy_settings = some rs ∧ s.id = 1 ∧
      hasId PharmacySettings.id rs s.id = false ∧
      db' = { db with pharmacy_settings := some (rs ++ [s]) } := by
  cases hc : db.pharmacy_settings with
  | none => simp [insertSettings, hc] at h
  | some rs =>
    simp only [insertSettings, hc] at h
    split at h
    · simp at h
    next h1 =>
    split at h
    · simp at h
    next h2 =>
    exact ⟨rs, rfl, not_not.1 h1, by simpa using h2, by simpa [eq_comm] using h⟩

theorem deleteGstSlab_ok {db db' : DB} {i : Nat} (h : deleteGstSlab db i = .ok db') :
    db' = db ∨ ∃ rs, db.gst_slabs = some rs ∧
      hasId Medicine.gst_slab_id (rowsOf db.medicines) i = false ∧
      db' = { db with gst_slabs := some (rs.filter (fun r => r.id != i)) } := by
  cases hc : db.gst_slabs with
  | none => simp [deleteGstSlab, hc] at h
  | some rs =>
    simp only [deleteGstSlab, hc] at h
    split at h
    · left; simpa [eq_comm] using h
    split at h
    · simp at h
    next hkids => exact Or.inr ⟨rs, rfl, by simpa using hkids, by simpa [eq_comm] using h⟩

theorem deleteMedicine_ok {db db' : DB} {i : Nat} (h : deleteMedicine db i = .ok db') :
    db' = db ∨ ∃ rs, db.medicines = some rs ∧
      hasId Batch.medicine_id (rowsOf db.batches) i = false ∧
      hasId SaleItem.medicine_id (rowsOf db.sale_items) i = false ∧
      db' = { db with medicines := some (rs.filter (fun r => r.id != i)) } := by
  cases hc : db.medicines with
  | none => simp [deleteMedicine, hc] at h
  | some rs =>
    simp only [deleteMedicine, hc] at h
    split at h
    · left; simpa [eq_comm] using h
    split at h
    · simp at h
    next h1 =>
    split at h
    · simp at h
    next h2 =>
    exact Or.inr ⟨rs, rfl, by simpa using h1, by simpa using h2, by simpa [eq_comm] using h⟩

theorem deleteBatch_ok {db db' : DB} {i : Nat} (h : deleteBatch db i = .ok db') :
    db' = db ∨ ∃ rs, db.batches = some rs ∧
      hasId SaleItem.batch_id (rowsOf db.sale_items) i = false ∧
      db' = { db with batches := some (rs.filter (fun r => r.id != i)) } := by
  cases hc : db.batches with
  | none => simp [deleteBatch, hc] at h
  | some rs =>
    simp only [deleteBatch, hc] at h
    split at h
    · left; simpa [eq_comm] using h
    split at h
    · simp at h
    next h1 => exact Or.inr ⟨rs, rfl, by simpa using h1, by simpa [eq_comm] using h⟩

theorem deleteUser_ok {db db' : DB} {i : Nat} (h : deleteUser db i = .ok db') :
    db' = db ∨ ∃ rs, db.users = some rs ∧
      hasId Sale.user_id (rowsOf db.sales) i = false ∧
      db' = { db with users := some (rs.filter (fun r => r.id != i)) } := by
  cases hc : db.users with
  | none => simp [deleteUser, hc] at h
  | some rs =>
    simp only [deleteUser, hc] at h
    split at h
    · left; simpa [eq_comm] using h
    split at h
    · simp at h
    next h1 => exact Or.inr ⟨rs, rfl, by simpa using h1, by simpa [eq_comm] using h⟩

theorem deleteCustomer_ok {db db' : DB} {i : Nat} (h : deleteCustomer db i = .ok db') :
    db' = db ∨ ∃ rs, db.customers = some rs ∧
      ((rowsOf db.sales).any (fun s => s.customer_id == some i)) = false ∧
      hasId Prescription.customer_id (rowsOf db.prescriptions) i = false ∧
      db' = { db with customers := some (rs.filter (fun r => r.id != i)) } := by
  cases hc : db.customers with
  | none => simp [deleteCustomer, hc] at h
  | some rs =>
    simp only [deleteCustomer, hc] at h
    split at h
    · left; simpa [eq_comm] using h
    split at h
    · simp at h
    next h1 =>
    split at h
    · simp at h
    next h2 =>
    exact Or.inr ⟨rs, rfl, by simpa using h1, by simpa using h2, by simpa [eq_comm] using h⟩

theorem deleteSupplier_ok {db db' : DB} {i : Nat} (h : deleteSupplier db i = .ok db') :
    db' = db ∨ ∃ rs, db.suppliers = some rs ∧
      hasId SupplierPayment.supplier_id (rowsOf db.supplier_payments) i = false ∧
      db' = { db with suppliers := some (rs.filter (fun r => r.id != i)) } := by
  cases hc : db.suppliers with
  | none => simp [deleteSupplier, hc] at h
  | some rs =>
    simp only [deleteSupplier, hc] at h
    split at h
    · left; simpa [eq_comm] using h
    split at h
    · simp at h
    next h1 => exact Or.inr ⟨rs, rfl, by simpa using h1, by simpa [eq_comm] using h⟩

theorem deleteSale_ok {db db' : DB} {i : Nat} (h : deleteSale db i = .ok db') :
    db' = db ∨ ∃ rs, db.sales = some rs ∧
      hasId SaleItem.sale_id (rowsOf db.sale_items) i = false ∧
      ((rowsOf db.prescriptions).any (fun p => p.sale_id == some i)) = false ∧
      db' = { db with sales := some (rs.filter (fun r => r.id != i)) } := by
  cases hc : db.sales with
  | none => simp [deleteSale, hc] at h
  | some rs =>
    simp only [deleteSale, hc] at h
    split at h
    · left; simpa [eq_comm] using h
    split at h
    · simp at h
    next h1 =>
    split at h
    · simp at h
    next h2 =>
    exact Or.inr ⟨rs, rfl, by simpa using h1, by simpa using h2, by simpa [eq_comm] using h⟩

theorem deleteSupplierPayment_ok {db db' : DB} {i : Nat}
    (h : deleteSupplierPayment db i = .ok db') :
    ∃ rs, db.supplier_payments = some rs ∧
      db' = { db with supplier_payments := some (rs.filter (fun r => r.id != i)) } := by
  cases hc : db.supplier_payments with
  | none => simp [deleteSupplierPayment, hc] at h
  | some rs =>
    simp only [deleteSupplierPayment, hc] at h
    exact ⟨rs, rfl, by simpa [eq_comm] using h⟩

theorem deleteSaleItem_ok {db db' : DB} {i : Nat} (h : deleteSaleItem db i = .ok db') :
    ∃ rs, db.sale_items = some rs ∧
      db' = { db with sale_items := some (rs.filter (fun r => r.id != i)) } := by
  cases hc : db.sale_items with
  | none => simp [deleteSaleItem, hc] at h
  | some rs =>
    simp only [deleteSaleItem, hc] at h
    exact ⟨rs, rfl, by simpa [eq_comm] using h⟩

theorem deletePrescription_ok {db db' : DB} {i : Nat}
    (h : deletePrescription db i = .ok db') :
    ∃ rs, db.prescriptions = some rs ∧
      db' = { db with prescriptions := some (rs.filter (fun r => r.id != i)) } := by
  cases hc : db.prescriptions with
  | none => simp [deletePrescription, hc] at h
  | some rs =>
    simp only [deletePrescription, hc] at h
    exact ⟨rs, rfl, by simpa [eq_comm] using h⟩

theorem deleteSettings_ok {db db' : DB} {i : Nat} (h : deleteSettings db i = .ok db') :
    ∃ rs, db.pharmacy_settings = some rs ∧
      db' = { db with pharmacy_settings := some (rs.filter (fun r => r.id != i)) } := by
  cases hc : db.pharmacy_settings with
  | none => simp [deleteSettings, hc] at h
  | some rs =>
    simp only [deleteSettings, hc] at h
    exact ⟨rs, rfl, by simpa [eq_comm] using h⟩

theorem updateBatch_ok {db db' : DB} {i : Nat} {b : Batch}
    (h : updateBatch db i b = .ok db') :
    db' = db ∨ ∃ rs, db.batches = some rs ∧ batchChecks b ∧
      hasId Medicine.id (rowsOf db.medicines) b.medicine_id = true ∧
      (b.id = i ∨ (hasId Batch.id rs b.id = false ∧
        hasId SaleItem.batch_id (rowsOf db.sale_items) i = false)) ∧
      db' = { db with batches := some (rs.map (fun r => if r.id = i then b else r)) } := by
  cases hc : db.batches with
  | none => simp [updateBatch, hc] at h
  | some rs =>
    simp only [updateBatch, hc] at h
    split at h
    · left; simpa [eq_comm] using h
    split at h
    · simp at h
    next hchk =>
    split at h
    · simp at h
    next hfk =>
    split at h
    · simp at h
    next hpk =>
    split at h
    · simp at h
    next hrestrict =>
    refine Or.inr ⟨rs, rfl, not_not.1 hchk, by simpa using hfk, ?_, by simpa [eq_comm] using h⟩
    by_cases hbi : b.id = i
    · exact Or.inl hbi
    · push_neg at hpk hrestrict
      exact Or.inr ⟨by simpa using hpk hbi, by simpa using hrestrict hbi⟩

theorem some_of_rows_ne_nil {α : Type} {t : Option (List α)} (h : rowsOf t ≠ []) :
    t = some (rowsOf t) := by
  cases t with
  | none => exact absurd rfl h
  | some rs => rfl

theorem seedGstSlab_ok {db db' : DB} {q : Rat} {d : String}
    (h : seedGstSlab db q d = .ok db') :
    ∃ rs, db.gst_slabs = some rs ∧
      ((rs.any (fun r => r.rate == q)) = true ∧ db' = db ∨
       (rs.any (fun r => r.rate == q)) = false ∧
         db' = { db with gst_slabs := some (rs ++ [seedSlabRow rs q d]) }) := by
  cases hc : db.gst_slabs with
  | none => simp [seedGstSlab, hc] at h
  | some rs =>
    simp only [seedGstSlab, hc] at h
    split at h
    · next hp => exact ⟨rs, rfl, Or.inl ⟨hp, by simpa [eq_comm] using h⟩⟩
    · next hp =>
      exact ⟨rs, rfl, Or.inr ⟨by simpa using hp, by simpa [eq_comm] using h⟩⟩

theorem seedGstSlab_skip {db : DB} {q : Rat} (d : String)
    (h : (rowsOf db.gst_slabs).any (fun r => r.rate == q) = true) :
    seedGstSlab db q d = .ok db := by
  have hne : rowsOf db.gst_slabs ≠ [] := by
    intro hnil
    rw [hnil] at h
    simp at h
  have hsome := some_of_rows_ne_nil hne
  rw [seedGstSlab, hsome]
  simp [h]

theorem seedUser_ok {db db' : DB} {un pw fn rl : String} {ac : Int} {now : String}
    (h : seedUser db un pw fn rl ac now = .ok db') :
    ∃ rs, db.users = some rs ∧
      (db' = db ∨
       db' = { db with users := some (rs ++ [seedUserRow rs un pw fn rl ac now]) }) := by
  cases hc : db.users with
  | none => simp [seedUser, hc] at h
  | some rs =>
    simp only [seedUser, hc] at h
    split at h
    · exact ⟨rs, rfl, Or.inl (by simpa [eq_comm] using h)⟩
    split at h
    · exact ⟨rs, rfl, Or.inl (by simpa [eq_comm] using h)⟩
    exact ⟨rs, rfl, Or.inr (by simpa [eq_comm] using h)⟩

theorem seedUser_idem {db db' : DB} {un pw fn rl : String} {ac : Int} {now now' : String}
    (h : seedUser db un pw fn rl ac now = .ok db') :
    seedUser db' un pw fn rl ac now' = .ok db' := by
  cases hc : db.users with
  | none => simp [seedUser, hc] at h
  | some rs =>
    simp only [seedUser, hc] at h
    split at h
    · next hdup =>
      have hdb : db' = db := by simpa [eq_comm] using h
      rw [hdb, seedUser, hc]
      simp [hdup]
    split at h
    · next hdup hrole =>
      have hdb : db' = db := by simpa [eq_comm] using h
      rw [hdb, seedUser, hc]
      simp only [hdup, Bool.false_eq_true, if_false]
      rw [if_pos hrole]
    · next hdup hrole =>
      simp only [Except.ok.injEq] at h
      subst h
      rw [seedUser]
      simp [seedUserRow, List.any_append]

theorem seedSettings_ok {db db' : DB} {i : Nat} {nm addr ph g d st now : String}
    (h : seedSettings db i nm addr ph g d st now = .ok db') :
    ∃ rs, db.pharmacy_settings = some rs ∧
      (db' = db ∨ (hasId PharmacySettings.id rs i = false ∧ i = 1 ∧
        db' = { db with pharmacy_settings := some (rs ++ [seedSettingsRow i nm addr ph g d st now]) })) := by
  cases hc : db.pharmacy_settings with
  | none => simp [seedSettings, hc] at h
  | some rs =>
    simp only [seedSettings, hc] at h
    split at h
    · exact ⟨rs, rfl, Or.inl (by simpa [eq_comm] using h)⟩
    split at h
    · exact ⟨rs, rfl, Or.inl (by simpa [eq_comm] using h)⟩
    next hdup hone =>
    exact ⟨rs, rfl, Or.inr ⟨by simpa using hdup, not_not.1 hone,
      by simpa [eq_comm] using h⟩⟩

theorem seedSettings_idem {db db' : DB} {i : Nat} {nm addr ph g d st now now' : String}
    (h : seedSettings db i nm addr ph g d st now = .ok db') :
    seedSettings db' i nm addr ph g d st now' = .ok db' := by
  cases hc : db.pharmacy_settings with
  | none => simp [seedSettings, hc] at h
  | some rs =>
    simp only [seedSettings, hc] at h
    split at h
    · next hdup =>
      have hdb : db' = db := by simpa [eq_comm] using h
      rw [hdb, seedSettings, hc]
      simp [hdup]
    split at h
    · next hdup hone =>
      have hdb : db' = db := by simpa [eq_comm] using h
      rw [hdb, seedSettings, hc]
      simp only [hdup, Bool.false_eq_true, if_false]
      rw [if_pos hone]
    · next hdup hone =>
      simp only [Except.ok.injEq] at h
      subst h
      rw [seedSettings]
      have hpres : hasId PharmacySettings.id
          (rs ++ [seedSettingsRow i nm addr ph g d st now]) i = true := by
        rw [hasId_iff]
        exact ⟨_, List.mem_append_right rs (List.mem_singleton.2 rfl), rfl⟩
      simp [hpres]

theorem seedGstSlab_idem {db db' : DB} {q : Rat} {d : String}
    (h : seedGstSlab db q d = .ok db') : seedGstSlab db' q d = .ok db' := by
  obtain ⟨rs, hc, hcase⟩ := seedGstSlab_ok h
  apply seedGstSlab_skip
  rcases hcase with ⟨hp, rfl⟩ | ⟨hp, rfl⟩
  · simpa [hc] using hp
  · simp [rowsOf, List.any_append, seedSlabRow]

theorem updateSettings_ok {now : String} {db db' : DB} {p : SettingsPatch}
    (h : updateSettings now db p = .ok db') :
    ∃ rs, db.pharmacy_settings = some rs ∧ hasId PharmacySettings.id rs 1 = true ∧
      db' = { db with pharmacy_settings := some (rs.map (patchRow now p)) } := by
  cases hc : db.pharmacy_settings with
  | none => simp [updateSettings, hc] at h
  | some rs =>
    simp only [updateSettings, hc] at h
    split at h
    · simp at h
    next h1 => exact ⟨rs, rfl, not_not.1 h1, by simpa [eq_comm] using h⟩

theorem bumpInvoice_ok {now : String} {db db' : DB} (h : bumpInvoice now db = .ok db') :
    ∃ rs, db.pharmacy_settings = some rs ∧
      db' = { db with pharmacy_settings := some (rs.map (bumpRow now)) } := by
  cases hc : db.pharmacy_settings with
  | none => simp [bumpInvoice, hc] at h
  | some rs =>
    simp only [bumpInvoice, hc] at h
    exact ⟨rs, rfl, by simpa [eq_comm] using h⟩

theorem decBatch_id (i : Nat) (q : Int) (r : Batch) : (decBatch i q r).id = r.id := by
  unfold decBatch
  split <;> rfl

theorem decBatch_medicine (i : Nat) (q : Int) (r : Batch) :
    (decBatch i q r).medicine_id = r.medicine_id := by
  unfold decBatch
  split <;> rfl

theorem patchRow_id (now : String) (p : SettingsPatch) (s : PharmacySettings) :
    (patchRow now p s).id = s.id := by
  unfold patchRow applyPatch
  split <;> rfl

theorem bumpRow_id (now : String) (s : PharmacySettings) : (bumpRow now s).id = s.id := by
  unfold bumpRow
  split <;> rfl

theorem buildLine_ok {db db1 : DB} {saleId itemId : Nat} {l : SaleLineInput}
    {it : SaleItem} (h : buildLine db saleId itemId l = .ok (it, db1)) :
    ∃ b ∈ rowsOf db.batches, ∃ g ∈ rowsOf db.gst_slabs,
      b.id = l.batch_id ∧ 0 < l.quantity ∧ l.quantity ≤ b.quantity ∧
      it = lineItem saleId itemId l b g ∧
      db1 = { db with batches := some ((rowsOf db.batches).map (decBatch b.id l.quantity)) } := by
  cases hb : (rowsOf db.batches).find? (fun b => b.id == l.batch_id) with
  | none => simp [buildLine, hb] at h
  | some b =>
    cases hm : (rowsOf db.medicines).find? (fun m => m.id == b.medicine_id) with
    | none => simp [buildLine, hb, hm] at h
    | some m =>
      cases hg : (rowsOf db.gst_slabs).find? (fun g => g.id == m.gst_slab_id) with
      | none => simp [buildLine, hb, hm, hg] at h
      | some g =>
        simp only [buildLine, hb, hm, hg] at h
        split at h
        · simp at h
        next hq0 =>
        split at h
        · simp at h
        next hqle =>
        have hmemb := List.mem_of_find?_eq_some hb
        have hidb : b.id = l.batch_id := by
          have := List.find?_some hb
          simpa using this
        have hmemg := List.mem_of_find?_eq_some hg
        simp only [Except.ok.injEq, Prod.mk.injEq] at h
        exact ⟨b, hmemb, g, hmemg, hidb, by omega, by omega, h.1.symm, h.2.symm⟩

theorem map_decBatch_id (i : Nat) (q : Int) (rs : List Batch) :
    (rs.map (decBatch i q)).map Batch.id = rs.map Batch.id := by
  have hf : Batch.id ∘ decBatch i q = Batch.id := funext fun r => decBatch_id i q r
  rw [List.map_map, hf]

theorem map_decBatch_medicine (i : Nat) (q : Int) (rs : List Batch) :
    (rs.map (decBatch i q)).map Batch.medicine_id = rs.map Batch.medicine_id := by
  have hf : Batch.medicine_id ∘ decBatch i q = Batch.medicine_id :=
    funext fun r => decBatch_medicine i q r
  rw [List.map_map, hf]

theorem decBatch_checks {rs : List Batch} {b : Batch} {q : Int}
    (hnd : (rs.map Batch.id).Nodup) (hmem : b ∈ rs) (_hq0 : 0 < q)
    (hqle : q ≤ b.quantity) (hok : ∀ r ∈ rs, batchChecks r) :
    ∀ r ∈ rs.map (decBatch b.id q), batchChecks r := by
  intro r' hr'
  obtain ⟨r, hr, rfl⟩ := List.mem_map.1 hr'
  by_cases hid : r.id = b.id
  · have hrb : r = b := List.inj_on_of_nodup_map hnd hr hmem hid
    subst hrb
    have hc := hok r hr
    unfold decBatch
    rw [if_pos hid]
    unfold batchChecks at hc ⊢
    simp only
    omega
  · unfold decBatch
    rw [if_neg hid]
    exact hok r hr

theorem recordSaleLoop_ok {saleId : Nat} :
    ∀ (lines : List SaleLineInput) (itemId : Nat) (db db1 : DB)
      (items : List SaleItem),
      recordSaleLoop saleId itemId db lines = .ok (items, db1) →
      db1.users = db.users ∧ db1.gst_slabs = db.gst_slabs ∧
      db1.medicines = db.medicines ∧ db1.customers = db.customers ∧
      db1.suppliers = db.suppliers ∧
      db1.supplier_payments = db.supplier_payments ∧
      db1.sales = db.sales ∧ db1.sale_items = db.sale_items ∧
      db1.prescriptions = db.prescriptions ∧
      db1.pharmacy_settings = db.pharmacy_settings ∧
      (rowsOf db1.batches).map Batch.id = (rowsOf db.batches).map Batch.id ∧
      (rowsOf db1.batches).map Batch.medicine_id =
        (rowsOf db.batches).map Batch.medicine_id ∧
      (((rowsOf db.batches).map Batch.id).Nodup →
        (∀ b ∈ rowsOf db.batches, batchChecks b) →
        ∀ b ∈ rowsOf db1.batches, batchChecks b)
  | [] => by
    intro itemId db db1 items h
    simp only [recordSaleLoop, Except.ok.injEq, Prod.mk.injEq] at h
    obtain ⟨-, rfl⟩ := h
    refine ⟨rfl, rfl, rfl, rfl, rfl, rfl, rfl, rfl, rfl, rfl, rfl, rfl, ?_⟩
    exact fun _ hb => hb
  | l :: ls => by
    intro itemId db db1 items h
    simp only [recordSaleLoop, bind, Except.bind] at h
    cases hb : buildLine db saleId itemId l with
    | error e => rw [hb] at h; simp at h
    | ok pr =>
      obtain ⟨it, dbl⟩ := pr
      rw [hb] at h
      simp only at h
      cases hl : recordSaleLoop saleId (itemId + 1) dbl ls with
      | error e => rw [hl] at h; simp at h
      | ok q =>
        obtain ⟨its, db2⟩ := q
        rw [hl] at h
        simp only [Except.ok.injEq, Prod.mk.injEq] at h
        obtain ⟨-, rfl⟩ := h
        obtain ⟨b, hmemb, g, hmemg, hidb, hq0, hqle, hit, hdbl⟩ := buildLine_ok hb
        have ih := recordSaleLoop_ok ls (itemId + 1) dbl db2 its hl
        subst hdbl
        simp only [rowsOf, Option.getD_some] at ih ⊢
        obtain ⟨i1, i2, i3, i4, i5, i6, i7, i8, i9, i10, i11, i12, i13⟩ := ih
        refine ⟨i1, i2, i3, i4, i5, i6, i7, i8, i9, i10, ?_, ?_, ?_⟩
        · rw [i11, map_decBatch_id]
        · rw [i12, map_decBatch_medicine]
        · intro hnd hok
          apply i13
          · rw [map_decBatch_id]
            exact hnd
          · exact decBatch_checks hnd hmemb hq0 hqle hok

theorem insertSaleItems_ok :
    ∀ (items : List SaleItem) (db db' : DB),
      insertSaleItems db items = .ok db' →
      db'.users = db.users ∧ db'.gst_slabs = db.gst_slabs ∧
      db'.medicines = db.medicines ∧ db'.batches = db.batches ∧
      db'.customers = db.customers ∧ db'.suppliers = db.suppliers ∧
      db'.supplier_payments = db.supplier_payments ∧ db'.sales = db.sales ∧
      db'.prescriptions = db.prescriptions ∧
      db'.pharmacy_settings = db.pharmacy_settings ∧
      rowsOf db'.sale_items = rowsOf db.sale_items ++ items ∧
      ∀ it ∈ items,
        hasId Sale.id (rowsOf db.sales) it.sale_id = true ∧
        hasId Batch.id (rowsOf db.batches) it.batch_id = true ∧
        hasId Medicine.id (rowsOf db.medicines) it.medicine_id = true
  | [] => by
    intro db db' h
    simp only [insertSaleItems, Except.ok.injEq] at h
    subst h
    exact ⟨rfl, rfl, rfl, rfl, rfl, rfl, rfl, rfl, rfl, rfl, by simp, by simp⟩
  | it :: its => by
    intro db db' h
    simp only [insertSaleItems, bind, Except.bind] at h
    cases h1 : insertSaleItem db it with
    | error e => rw [h1] at h; simp at h
    | ok db1 =>
      rw [h1] at h
      simp only at h
      obtain ⟨rs, hrs, hfk1, hfk2, hfk3, hdb1⟩ := insertSaleItem_ok h1
      have ih := insertSaleItems_ok its db1 db' h
      subst hdb1
      simp only at ih
      obtain ⟨i1, i2, i3, i4, i5, i6, i7, i8, i9, i10, hrows, hfks⟩ := ih
      refine ⟨i1, i2, i3, i4, i5, i6, i7, i8, i9, i10, ?_, ?_⟩
      · rw [hrows, hrs]
        simp [rowsOf]
      · intro x hx
        rcases List.mem_cons.1 hx with rfl | hx'
        · exact ⟨hfk1, hfk2, hfk3⟩
        · exact hfks x hx'

theorem except_bind_ok {α β γ : Type} {A : Except γ α} {k : α → Except γ β} {c : β}
    (h : Except.bind A k = .ok c) : ∃ b, A = .ok b ∧ k b = .ok c := by
  cases A with
  | error e => simp [Except.bind] at h
  | ok b => exact ⟨b, rfl, by simpa [Except.bind] using h⟩

theorem recordSale_ok {now : String} {db db' : DB} {inp : SaleInput}
    {lines : List SaleLineInput} (h : recordSale now db inp lines = .ok db') :
    ∃ st, (rowsOf db.pharmacy_settings).find? (fun s => s.id == 1) = some st ∧
    ∃ ps, db.pharmacy_settings = some ps ∧
      db'.pharmacy_settings = some (ps.map (bumpRow now)) ∧
      db'.users = db.users ∧ db'.gst_slabs = db.gst_slabs ∧
      db'.medicines = db.medicines ∧ db'.customers = db.customers ∧
      db'.suppliers = db.suppliers ∧
      db'.supplier_payments = db.supplier_payments ∧
      db'.prescriptions = db.prescriptions ∧
      (rowsOf db'.batches).map Batch.id = (rowsOf db.batches).map Batch.id ∧
      (rowsOf db'.batches).map Batch.medicine_id =
        (rowsOf db.batches).map Batch.medicine_id ∧
      (((rowsOf db.batches).map Batch.id).Nodup →
        (∀ b ∈ rowsOf db.batches, batchChecks b) →
        ∀ b ∈ rowsOf db'.batches, batchChecks b) ∧
    ∃ sale ss items,
      db.sales = some ss ∧ db'.sales = some (ss ++ [sale]) ∧
      (ss.any (fun r => r.invoice_number == sale.invoice_number)) = false ∧
      sale.invoice_number =
        PharmacySettings.invoice_prefix st ++ toString st.next_invoice_number ∧
      sale.user_id = inp.user_id ∧ sale.customer_id = inp.customer_id ∧
      hasId UserRow.id (rowsOf db.users) sale.user_id = true ∧
      sale.customer_id.all (hasId Customer.id (rowsOf db.customers)) = true ∧
      sale.grand_total_paise =
        sale.subtotal_paise - sale.discount_paise + sale.total_gst_paise ∧
      sale.total_gst_paise = sale.total_cgst_paise + sale.total_sgst_paise ∧
      rowsOf db'.sale_items = rowsOf db.sale_items ++ items ∧
      ∀ it ∈ items,
        hasId Sale.id (rowsOf db'.sales) it.sale_id = true ∧
        hasId Batch.id (rowsOf db'.batches) it.batch_id = true ∧
        hasId Medicine.id (rowsOf db.medicines) it.medicine_id = true := by
  cases hst : (rowsOf db.pharmacy_settings).find? (fun s => s.id == 1) with
  | none => simp [recordSale, hst] at h
  | some st =>
    refine ⟨st, rfl, ?_⟩
    have hps : db.pharmacy_settings = some (rowsOf db.pharmacy_settings) := by
      apply some_of_rows_ne_nil
      intro hnil
      rw [hnil] at hst
      simp at hst
    simp only [recordSale, hst] at h
    split at h
    · simp at h
    obtain ⟨pr, hloop, h⟩ := except_bind_ok h
    obtain ⟨items, db1⟩ := pr
    simp only at h
    obtain ⟨db2, h2, h⟩ := except_bind_ok h
    obtain ⟨db3, h3, h⟩ := except_bind_ok h
    obtain ⟨l1, l2, l3, l4, l5, l6, l7, l8, l9, l10, l11, l12, l13⟩ :=
      recordSaleLoop_ok lines _ db db1 items hloop
    obtain ⟨ss, hss, hinv, huser, hcust, hdb2⟩ := insertSale_ok h2
    obtain ⟨s1, s2, s3, s4, s5, s6, s7, s8, s9, s10, sitems, sfks⟩ :=
      insertSaleItems_ok items db2 db3 h3
    obtain ⟨rs3, hrs3, hdb'⟩ := bumpInvoice_ok h
    subst hdb2
    subst hdb'
    dsimp only at *
    have hsales_db : db.sales = some ss := by rw [← l7, hss]
    have hrs3' : rs3 = rowsOf db.pharmacy_settings := by
      have hx : some rs3 = some (rowsOf db.pharmacy_settings) := by
        rw [← hrs3, s10, l10]
        exact hps
      exact Option.some.inj hx
    refine ⟨rowsOf db.pharmacy_settings, hps, by rw [hrs3'], ?_⟩
    refine ⟨by rw [s1, l1], by rw [s2, l2], by rw [s3, l3], by rw [s5, l4],
      by rw [s6, l5], by rw [s7, l6], by rw [s9, l9], ?_, ?_, ?_, ?_⟩
    · rw [s4]
      exact l11
    · rw [s4]
      exact l12
    · intro hnd hok
      rw [s4]
      exact l13 hnd hok
    refine ⟨_, ss, items, hsales_db, by rw [s8], hinv, rfl, rfl, rfl, ?_, ?_,
      rfl, rfl, ?_, ?_⟩
    · rw [l1] at huser
      exact huser
    · rw [l4] at hcust
      exact hcust
    · rw [sitems, l8]
    · intro it hit
      obtain ⟨f1, f2, f3⟩ := sfks it hit
      refine ⟨?_, ?_, ?_⟩
      · rw [s8]
        exact f1
      · rw [s4]
        exact f2
      · rw [l3] at f3
        exact f3

theorem migration1_inv {db : DB} (hI : Inv db) : Inv (migration1 db) := by
  obtain ⟨bok, refs, slen, sid, bids, invs⟩ := hI
  obtain ⟨f1, f2, f3, f4, f5, f6, f7, f8, f9, f10⟩ := refs
  exact ⟨bok, ⟨f1, f2, f3, f4, f5, f6, f7, f8, f9, f10⟩, slen, sid, bids, invs⟩

theorem rows_of_eq {α : Type} {t : Option (List α)} {rs : List α}
    (h : t = some rs) : rowsOf t = rs := by
  rw [h]
  rfl

theorem insertUser_inv {db db' : DB} {u : UserRow}
    (h : insertUser db u = .ok db') (hI : Inv db) : Inv db' := by
  obtain ⟨rs, hc, rfl⟩ := insertUser_ok h
  obtain ⟨bok, refs, slen, sid, bids, invs⟩ := hI
  obtain ⟨f1, f2, f3, f4, f5, f6, f7, f8, f9, f10⟩ := refs
  have hrows : rowsOf db.users = rs := rows_of_eq hc
  refine ⟨bok, ⟨f1, f2, f3, ?_, f5, f6, f7, f8, f9, f10⟩, slen, sid, bids, invs⟩
  intro s hs
  have := f4 s hs
  rw [hrows] at this
  simpa [rowsOf] using hasId_append UserRow.id rs [u] s.user_id this

theorem insertGstSlab_inv {db db' : DB} {g : GstSlab}
    (h : insertGstSlab db g = .ok db') (hI : Inv db) : Inv db' := by
  obtain ⟨rs, hc, rfl⟩ := insertGstSlab_ok h
  obtain ⟨bok, refs, slen, sid, bids, invs⟩ := hI
  obtain ⟨f1, f2, f3, f4, f5, f6, f7, f8, f9, f10⟩ := refs
  have hrows : rowsOf db.gst_slabs = rs := rows_of_eq hc
  refine ⟨bok, ⟨?_, f2, f3, f4, f5, f6, f7, f8, f9, f10⟩, slen, sid, bids, invs⟩
  intro m hm
  have := f1 m hm
  rw [hrows] at this
  simpa [rowsOf] using hasId_append GstSlab.id rs [g] m.gst_slab_id this

theorem insertCustomer_inv {db db' : DB} {c : Customer}
    (h : insertCustomer db c = .ok db') (hI : Inv db) : Inv db' := by
  obtain ⟨rs, hc, rfl⟩ := insertCustomer_ok h
  obtain ⟨bok, refs, slen, sid, bids, invs⟩ := hI
  obtain ⟨f1, f2, f3, f4, f5, f6, f7, f8, f9, f10⟩ := refs
  have hrows : rowsOf db.customers = rs := rows_of_eq hc
  refine ⟨bok, ⟨f1, f2, f3, f4, ?_, f6, f7, f8, ?_, f10⟩, slen, sid, bids, invs⟩
  · intro s hs
    have := f5 s hs
    rw [hrows] at this
    refine optAll_mono s.customer_id (fun j hj => ?_) this
    simpa [rowsOf] using hasId_append Customer.id rs [c] j hj
  · intro p hp
    have := f9 p hp
    rw [hrows] at this
    simpa [rowsOf] using hasId_append Customer.id rs [c] p.customer_id this

theorem insertSupplier_inv {db db' : DB} {s : Supplier}
    (h : insertSupplier db s = .ok db') (hI : Inv db) : Inv db' := by
  obtain ⟨rs, hc, rfl⟩ := insertSupplier_ok h
  obtain ⟨bok, refs, slen, sid, bids, invs⟩ := hI
  obtain ⟨f1, f2, f3, f4, f5, f6, f7, f8, f9, f10⟩ := refs
  have hrows : rowsOf db.suppliers = rs := rows_of_eq hc
  refine ⟨bok, ⟨f1, f2, ?_, f4, f5, f6, f7, f8, f9, f10⟩, slen, sid, bids, invs⟩
  intro p hp
  have := f3 p hp
  rw [hrows] at this
  simpa [rowsOf] using hasId_append Supplier.id rs [s] p.supplier_id this

theorem insertSupplierPayment_inv {db db' : DB} {p : SupplierPayment}
    (h : insertSupplierPayment db p = .ok db') (hI : Inv db) : Inv db' := by
  obtain ⟨rs, hc, hfk, rfl⟩ := insertSupplierPayment_ok h
  obtain ⟨bok, refs, slen, sid, bids, invs⟩ := hI
  obtain ⟨f1, f2, f3, f4, f5, f6, f7, f8, f9, f10⟩ := refs
  have hrows : rowsOf db.supplier_payments = rs := rows_of_eq hc
  refine ⟨bok, ⟨f1, f2, ?_, f4, f5, f6, f7, f8, f9, f10⟩, slen, sid, bids, invs⟩
  intro q hq
  simp only [rowsOf, Option.getD_some] at hq
  rcases List.mem_append.1 hq with hq' | hq'
  · have : q ∈ rowsOf db.supplier_payments := by rw [hrows]; exact hq'
    exact f3 q this
  · rw [List.mem_singleton.1 hq']
    exact hfk

theorem insertMedicine_inv {db db' : DB} {m : Medicine}
    (h : insertMedicine db m = .ok db') (hI : Inv db) : Inv db' := by
  obtain ⟨rs, hc, hfk, rfl⟩ := insertMedicine_ok h
  obtain ⟨bok, refs, slen, sid, bids, invs⟩ := hI
  obtain ⟨f1, f2, f3, f4, f5, f6, f7, f8, f9, f10⟩ := refs
  have hrows : rowsOf db.medicines = rs := rows_of_eq hc
  refine ⟨bok, ⟨?_, ?_, f3, f4, f5, f6, f7, ?_, f9, f10⟩, slen, sid, bids, invs⟩
  · intro q hq
    simp only [rowsOf, Option.getD_some] at hq
    rcases List.mem_append.1 hq with hq' | hq'
    · have : q ∈ rowsOf db.medicines := by rw [hrows]; exact hq'
      exact f1 q this
    · rw [List.mem_singleton.1 hq']
      exact hfk
  · intro b hb
    have := f2 b hb
    rw [hrows] at this
    simpa [rowsOf] using hasId_append Medicine.id rs [m] b.medicine_id this
  · intro it hit
    have := f8 it hit
    rw [hrows] at this
    simpa [rowsOf] using hasId_append Medicine.id rs [m] it.medicine_id this

theorem insertBatch_inv {db db' : DB} {b : Batch}
    (h : insertBatch db b = .ok db') (hI : Inv db) : Inv db' := by
  obtain ⟨rs, hc, hchk, hdup, hfk, rfl⟩ := insertBatch_ok h
  obtain ⟨bok, refs, slen, sid, bids, invs⟩ := hI
  obtain ⟨f1, f2, f3, f4, f5, f6, f7, f8, f9, f10⟩ := refs
  have hrows : rowsOf db.batches = rs := rows_of_eq hc
  refine ⟨?_, ⟨f1, ?_, f3, f4, f5, f6, ?_, f8, f9, f10⟩, slen, sid, ?_, invs⟩
  · intro q hq
    simp only [rowsOf, Option.getD_some] at hq
    rcases List.mem_append.1 hq with hq' | hq'
    · have : q ∈ rowsOf db.batches := by rw [hrows]; exact hq'
      exact bok q this
    · rw [List.mem_singleton.1 hq']
      exact hchk
  · intro q hq
    simp only [rowsOf, Option.getD_some] at hq
    rcases List.mem_append.1 hq with hq' | hq'
    · have : q ∈ rowsOf db.batches := by rw [hrows]; exact hq'
      exact f2 q this
    · rw [List.mem_singleton.1 hq']
      exact hfk
  · intro it hit
    have := f7 it hit
    rw [hrows] at this
    simpa [rowsOf] using hasId_append Batch.id rs [b] it.batch_id this
  · simp only [rowsOf, Option.getD_some, List.map_append, List.map_cons, List.map_nil]
    rw [List.nodup_append]
    refine ⟨by rw [hrows] at bids; exact bids, List.nodup_singleton _, ?_⟩
    intro x hx
    simp only [List.mem_singleton]
    intro hxb
    rw [hxb] at hx
    obtain ⟨r, hr, hrid⟩ := List.mem_map.1 hx
    have : hasId Batch.id rs b.id = true := (hasId_iff _ _ _).2 ⟨r, hr, hrid⟩
    rw [hdup] at this
    cases this

theorem insertSale_inv {db db' : DB} {s : Sale}
    (h : insertSale db s = .ok db') (hI : Inv db) : Inv db' := by
  obtain ⟨rs, hc, hinv, huser, hcust, rfl⟩ := insertSale_ok h
  obtain ⟨bok, refs, slen, sid, bids, invs⟩ := hI
  obtain ⟨f1, f2, f3, f4, f5, f6, f7, f8, f9, f10⟩ := refs
  have hrows : rowsOf db.sales = rs := rows_of_eq hc
  refine ⟨bok, ⟨f1, f2, f3, ?_, ?_, ?_, f7, f8, f9, ?_⟩, slen, sid, bids, ?_⟩
  · intro q hq
    simp only [rowsOf, Option.getD_some] at hq
    rcases List.mem_append.1 hq with hq' | hq'
    · have : q ∈ rowsOf db.sales := by rw [hrows]; exact hq'
      exact f4 q this
    · rw [List.mem_singleton.1 hq']
      exact huser
  · intro q hq
    simp only [rowsOf, Option.getD_some] at hq
    rcases List.mem_append.1 hq with hq' | hq'
    · have : q ∈ rowsOf db.sales := by rw [hrows]; exact hq'
      exact f5 q this
    · rw [List.mem_singleton.1 hq']
      exact hcust
  · intro it hit
    have := f6 it hit
    rw [hrows] at this
    simpa [rowsOf] using hasId_append Sale.id rs [s] it.sale_id this
  · intro p hp
    have := f10 p hp
    rw [hrows] at this
    refine optAll_mono p.sale_id (fun j hj => ?_) this
    simpa [rowsOf] using hasId_append Sale.id rs [s] j hj
  · simp only [rowsOf, Option.getD_some, List.map_append, List.map_cons, List.map_nil]
    rw [List.nodup_append]
    refine ⟨by rw [hrows] at invs; exact invs, List.nodup_singleton _, ?_⟩
    intro x hx
    simp only [List.mem_singleton]
    intro hxs
    rw [hxs] at hx
    obtain ⟨r, hr, hrn⟩ := List.mem_map.1 hx
    have : rs.any (fun r => r.invoice_number == s.invoice_number) = true := by
      simp only [List.any_eq_true]
      exact ⟨r, hr, by simpa using hrn⟩
    rw [hinv] at this
    cases this

theorem insertSaleItem_inv {db db' : DB} {it : SaleItem}
    (h : insertSaleItem db it = .ok db') (hI : Inv db) : Inv db' := by
  obtain ⟨rs, hc, hfk1, hfk2, hfk3, rfl⟩ := insertSaleItem_ok h
  obtain ⟨bok, refs, slen, sid, bids, invs⟩ := hI
  obtain ⟨f1, f2, f3, f4, f5, f6, f7, f8, f9, f10⟩ := refs
  have hrows : rowsOf db.sale_items = rs := rows_of_eq hc
  refine ⟨bok, ⟨f1, f2, f3, f4, f5, ?_, ?_, ?_, f9, f10⟩, slen, sid, bids, invs⟩
  all_goals
    intro q hq
    simp only [rowsOf, Option.getD_some] at hq
    rcases List.mem_append.1 hq with hq' | hq'
  · exact f6 q (by rw [hrows]; exact hq')
  · rw [List.mem_singleton.1 hq']
    exact hfk1
  · exact f7 q (by rw [hrows]; exact hq')
  · rw [List.mem_singleton.1 hq']
    exact hfk2
  · exact f8 q (by rw [hrows]; exact hq')
  · rw [List.mem_singleton.1 hq']
    exact hfk3

theorem insertPrescription_inv {db db' : DB} {p : Prescription}
    (h : insertPrescription db p = .ok db') (hI : Inv db) : Inv db' := by
  obtain ⟨rs, hc, hfk1, hfk2, rfl⟩ := insertPrescription_ok h
  obtain ⟨bok, refs, slen, sid, bids, invs⟩ := hI
  obtain ⟨f1, f2, f3, f4, f5, f6, f7, f8, f9, f10⟩ := refs
  have hrows : rowsOf db.prescriptions = rs := rows_of_eq hc
  refine ⟨bok, ⟨f1, f2, f3, f4, f5, f6, f7, f8, ?_, ?_⟩, slen, sid, bids, invs⟩
  all_goals
    intro q hq
    simp only [rowsOf, Option.getD_some] at hq
    rcases List.mem_append.1 hq with hq' | hq'
  · exact f9 q (by rw [hrows]; exact hq')
  · rw [List.mem_singleton.1 hq']
    exact hfk1
  · exact f10 q (by rw [hrows]; exact hq')
  · rw [List.mem_singleton.1 hq']
    exact hfk2

theorem insertSettings_inv {db db' : DB} {s : PharmacySettings}
    (h : insertSettings db s = .ok db') (hI : Inv db) : Inv db' := by
  obtain ⟨rs, hc, hone, hdup, rfl⟩ := insertSettings_ok h
  obtain ⟨bok, refs, slen, sid, bids, invs⟩ := hI
  obtain ⟨f1, f2, f3, f4, f5, f6, f7, f8, f9, f10⟩ := refs
  have hrows : rowsOf db.pharmacy_settings = rs := rows_of_eq hc
  have hrs_nil : rs = [] := by
    cases hrsc : rs with
    | nil => rfl
    | cons r rest =>
      have hr1 : r.id = 1 := by
        apply sid
        rw [hrows, hrsc]
        exact List.mem_cons_self r rest
      have : hasId PharmacySettings.id rs s.id = true := by
        rw [hasId_iff]
        exact ⟨r, by rw [hrsc]; exact List.mem_cons_self r rest, by rw [hr1, hone]⟩
      rw [hdup] at this
      cases this
  subst hrs_nil
  refine ⟨bok, ⟨f1, f2, f3, f4, f5, f6, f7, f8, f9, f10⟩, ?_, ?_, bids, invs⟩
  · simp [rowsOf]
  · intro q hq
    simp only [rowsOf, Option.getD_some, List.nil_append, List.mem_singleton] at hq
    rw [hq]
    exact hone

theorem nodup_map_filter {α β : Type} (f : α → β) (p : α → Bool) (rs : List α)
    (h : (rs.map f).Nodup) : ((rs.filter p).map f).Nodup :=
  ((rs.filter_sublist).map f).nodup h

theorem deleteGstSlab_inv {db db' : DB} {i : Nat}
    (h : deleteGstSlab db i = .ok db') (hI : Inv db) : Inv db' := by
  rcases deleteGstSlab_ok h with rfl | ⟨rs, hc, hkids, rfl⟩
  · exact hI
  obtain ⟨bok, refs, slen, sid, bids, invs⟩ := hI
  obtain ⟨f1, f2, f3, f4, f5, f6, f7, f8, f9, f10⟩ := refs
  have hrows : rowsOf db.gst_slabs = rs := rows_of_eq hc
  refine ⟨bok, ⟨?_, f2, f3, f4, f5, f6, f7, f8, f9, f10⟩, slen, sid, bids, invs⟩
  intro m hm
  have hold := f1 m hm
  rw [hrows] at hold
  have hne : m.gst_slab_id ≠ i := (hasId_eq_false _ _ _).1 hkids m hm
  simpa [rowsOf] using hasId_filter GstSlab.id rs i m.gst_slab_id hold hne

theorem deleteMedicine_inv {db db' : DB} {i : Nat}
    (h : deleteMedicine db i = .ok db') (hI : Inv db) : Inv db' := by
  rcases deleteMedicine_ok h with rfl | ⟨rs, hc, hkb, hki, rfl⟩
  · exact hI
  obtain ⟨bok, refs, slen, sid, bids, invs⟩ := hI
  obtain ⟨f1, f2, f3, f4, f5, f6, f7, f8, f9, f10⟩ := refs
  have hrows : rowsOf db.medicines = rs := rows_of_eq hc
  refine ⟨bok, ⟨?_, ?_, f3, f4, f5, f6, f7, ?_, f9, f10⟩, slen, sid, bids, invs⟩
  · intro m hm
    simp only [rowsOf, Option.getD_some] at hm
    exact f1 m (by rw [hrows]; exact List.mem_of_mem_filter hm)
  · intro b hb
    have hold := f2 b hb
    rw [hrows] at hold
    have hne : b.medicine_id ≠ i := (hasId_eq_false _ _ _).1 hkb b hb
    simpa [rowsOf] using hasId_filter Medicine.id rs i b.medicine_id hold hne
  · intro it hit
    have hold := f8 it hit
    rw [hrows] at hold
    have hne : it.medicine_id ≠ i := (hasId_eq_false _ _ _).1 hki it hit
    simpa [rowsOf] using hasId_filter Medicine.id rs i it.medicine_id hold hne

theorem deleteBatch_inv {db db' : DB} {i : Nat}
    (h : deleteBatch db i = .ok db') (hI : Inv db) : Inv db' := by
  rcases deleteBatch_ok h with rfl | ⟨rs, hc, hki, rfl⟩
  · exact hI
  obtain ⟨bok, refs, slen, sid, bids, invs⟩ := hI
  obtain ⟨f1, f2, f3, f4, f5, f6, f7, f8, f9, f10⟩ := refs
  have hrows : rowsOf db.batches = rs := rows_of_eq hc
  refine ⟨?_, ⟨f1, ?_, f3, f4, f5, f6, ?_, f8, f9, f10⟩, slen, sid, ?_, invs⟩
  · intro b hb
    simp only [rowsOf, Option.getD_some] at hb
    exact bok b (by rw [hrows]; exact List.mem_of_mem_filter hb)
  · intro b hb
    simp only [rowsOf, Option.getD_some] at hb
    exact f2 b (by rw [hrows]; exact List.mem_of_mem_filter hb)
  · intro it hit
    have hold := f7 it hit
    rw [hrows] at hold
    have hne : it.batch_id ≠ i := (hasId_eq_false _ _ _).1 hki it hit
    simpa [rowsOf] using hasId_filter Batch.id rs i it.batch_id hold hne
  · rw [hrows] at bids
    simpa [rowsOf] using nodup_map_filter Batch.id (fun r => r.id != i) rs bids

theorem deleteUser_inv {db db' : DB} {i : Nat}
    (h : deleteUser db i = .ok db') (hI : Inv db) : Inv db' := by
  rcases deleteUser_ok h with rfl | ⟨rs, hc, hki, rfl⟩
  · exact hI
  obtain ⟨bok, refs, slen, sid, bids, invs⟩ := hI
  obtain ⟨f1, f2, f3, f4, f5, f6, f7, f8, f9, f10⟩ := refs
  have hrows : rowsOf db.users = rs := rows_of_eq hc
  refine ⟨bok, ⟨f1, f2, f3, ?_, f5, f6, f7, f8, f9, f10⟩, slen, sid, bids, invs⟩
  intro s hs
  have hold := f4 s hs
  rw [hrows] at hold
  have hne : s.user_id ≠ i := (hasId_eq_false _ _ _).1 hki s hs
  simpa [rowsOf] using hasId_filter UserRow.id rs i s.user_id hold hne

theorem deleteCustomer_inv {db db' : DB} {i : Nat}
    (h : deleteCustomer db i = .ok db') (hI : Inv db) : Inv db' := by
  rcases deleteCustomer_ok h with rfl | ⟨rs, hc, hks, hkp, rfl⟩
  · exact hI
  obtain ⟨bok, refs, slen, sid, bids, invs⟩ := hI
  obtain ⟨f1, f2, f3, f4, f5, f6, f7, f8, f9, f10⟩ := refs
  have hrows : rowsOf db.customers = rs := rows_of_eq hc
  refine ⟨bok, ⟨f1, f2, f3, f4, ?_, f6, f7, f8, ?_, f10⟩, slen, sid, bids, invs⟩
  · intro s hs
    have hold := f5 s hs
    rw [hrows] at hold
    have hne : s.customer_id ≠ some i := by
      intro heq
      have hx : (rowsOf db.sales).any (fun t => t.customer_id == some i) = true := by
        simp only [List.any_eq_true]
        exact ⟨s, hs, by simp [heq]⟩
      rw [hks] at hx
      cases hx
    cases hcid : s.customer_id with
    | none => simp [rowsOf, hcid]
    | some j =>
      rw [hcid] at hold hne
      have hji : j ≠ i := fun hji => hne (by rw [hji])
      have hres := hasId_filter Customer.id rs i j (by simpa using hold) hji
      simp only [rowsOf, Option.getD_some, hcid, Option.all_some]
      exact hres
  · intro p hp
    have hold := f9 p hp
    rw [hrows] at hold
    have hne : p.customer_id ≠ i := (hasId_eq_false _ _ _).1 hkp p hp
    simpa [rowsOf] using hasId_filter Customer.id rs i p.customer_id hold hne

theorem deleteSupplier_inv {db db' : DB} {i : Nat}
    (h : deleteSupplier db i = .ok db') (hI : Inv db) : Inv db' := by
  rcases deleteSupplier_ok h with rfl | ⟨rs, hc, hki, rfl⟩
  · exact hI
  obtain ⟨bok, refs, slen, sid, bids, invs⟩ := hI
  obtain ⟨f1, f2, f3, f4, f5, f6, f7, f8, f9, f10⟩ := refs
  have hrows : rowsOf db.suppliers = rs := rows_of_eq hc
  refine ⟨bok, ⟨f1, f2, ?_, f4, f5, f6, f7, f8, f9, f10⟩, slen, sid, bids, invs⟩
  intro p hp
  have hold := f3 p hp
  rw [hrows] at hold
  have hne : p.supplier_id ≠ i := (hasId_eq_false _ _ _).1 hki p hp
  simpa [rowsOf] using hasId_filter Supplier.id rs i p.supplier_id hold hne

theorem deleteSale_inv {db db' : DB} {i : Nat}
    (h : deleteSale db i = .ok db') (hI : Inv db) : Inv db' := by
  rcases deleteSale_ok h with rfl | ⟨rs, hc, hki, hkp, rfl⟩
  · exact hI
  obtain ⟨bok, refs, slen, sid, bids, invs⟩ := hI
  obtain ⟨f1, f2, f3, f4, f5, f6, f7, f8, f9, f10⟩ := refs
  have hrows : rowsOf db.sales = rs := rows_of_eq hc
  refine ⟨bok, ⟨f1, f2, f3, ?_, ?_, ?_, f7, f8, f9, ?_⟩, slen, sid, bids, ?_⟩
  · intro s hs
    simp only [rowsOf, Option.getD_some] at hs
    exact f4 s (by rw [hrows]; exact List.mem_of_mem_filter hs)
  · intro s hs
    simp only [rowsOf, Option.getD_some] at hs
    exact f5 s (by rw [hrows]; exact List.mem_of_mem_filter hs)
  · intro it hit
    have hold := f6 it hit
    rw [hrows] at hold
    have hne : it.sale_id ≠ i := (hasId_eq_false _ _ _).1 hki it hit
    simpa [rowsOf] using hasId_filter Sale.id rs i it.sale_id hold hne
  · intro p hp
    have hold := f10 p hp
    rw [hrows] at hold
    have hne : p.sale_id ≠ some i := by
      intro heq
      have hx : (rowsOf db.prescriptions).any (fun t => t.sale_id == some i) = true := by
        simp only [List.any_eq_true]
        exact ⟨p, hp, by simp [heq]⟩
      rw [hkp] at hx
      cases hx
    cases hsid : p.sale_id with
    | none => simp [rowsOf, hsid]
    | some j =>
      rw [hsid] at hold hne
      have hji : j ≠ i := fun hji => hne (by rw [hji])
      have hres := hasId_filter Sale.id rs i j (by simpa using hold) hji
      simp only [rowsOf, Option.getD_some, hsid, Option.all_some]
      exact hres
  · rw [hrows] at invs
    simpa [rowsOf] using nodup_map_filter Sale.invoice_number (fun r => r.id != i) rs invs

theorem deleteSupplierPayment_inv {db db' : DB} {i : Nat}
    (h : deleteSupplierPayment db i = .ok db') (hI : Inv db) : Inv db' := by
  obtain ⟨rs, hc, rfl⟩ := deleteSupplierPayment_ok h
  obtain ⟨bok, refs, slen, sid, bids, invs⟩ := hI
  obtain ⟨f1, f2, f3, f4, f5, f6, f7, f8, f9, f10⟩ := refs
  have hrows : rowsOf db.supplier_payments = rs := rows_of_eq hc
  refine ⟨bok, ⟨f1, f2, ?_, f4, f5, f6, f7, f8, f9, f10⟩, slen, sid, bids, invs⟩
  intro p hp
  simp only [rowsOf, Option.getD_some] at hp
  exact f3 p (by rw [hrows]; exact List.mem_of_mem_filter hp)

theorem deleteSaleItem_inv {db db' : DB} {i : Nat}
    (h : deleteSaleItem db i = .ok db') (hI : Inv db) : Inv db' := by
  obtain ⟨rs, hc, rfl⟩ := deleteSaleItem_ok h
  obtain ⟨bok, refs, slen, sid, bids, invs⟩ := hI
  obtain ⟨f1, f2, f3, f4, f5, f6, f7, f8, f9, f10⟩ := refs
  have hrows : rowsOf db.sale_items = rs := rows_of_eq hc
  refine ⟨bok, ⟨f1, f2, f3, f4, f5, ?_, ?_, ?_, f9, f10⟩, slen, sid, bids, invs⟩
  all_goals
    intro p hp
    simp only [rowsOf, Option.getD_some] at hp
    have hmem : p ∈ rowsOf db.sale_items := by
      rw [hrows]
      exact List.mem_of_mem_filter hp
  · exact f6 p hmem
  · exact f7 p hmem
  · exact f8 p hmem

theorem deletePrescription_inv {db db' : DB} {i : Nat}
    (h : deletePrescription db i = .ok db') (hI : Inv db) : Inv db' := by
  obtain ⟨rs, hc, rfl⟩ := deletePrescription_ok h
  obtain ⟨bok, refs, slen, sid, bids, invs⟩ := hI
  obtain ⟨f1, f2, f3, f4, f5, f6, f7, f8, f9, f10⟩ := refs
  have hrows : rowsOf db.prescriptions = rs := rows_of_eq hc
  refine ⟨bok, ⟨f1, f2, f3, f4, f5, f6, f7, f8, ?_, ?_⟩, slen, sid, bids, invs⟩
  all_goals
    intro p hp
    simp only [rowsOf, Option.getD_some] at hp
    have hmem : p ∈ rowsOf db.prescriptions := by
      rw [hrows]
      exact List.mem_of_mem_filter hp
  · exact f9 p hmem
  · exact f10 p hmem

theorem deleteSettings_inv {db db' : DB} {i : Nat}
    (h : deleteSettings db i = .ok db') (hI : Inv db) : Inv db' := by
  obtain ⟨rs, hc, rfl⟩ := deleteSettings_ok h
  obtain ⟨bok, refs, slen, sid, bids, invs⟩ := hI
  obtain ⟨f1, f2, f3, f4, f5, f6, f7, f8, f9, f10⟩ := refs
  have hrows : rowsOf db.pharmacy_settings = rs := rows_of_eq hc
  refine ⟨bok, ⟨f1, f2, f3, f4, f5, f6, f7, f8, f9, f10⟩, ?_, ?_, bids, invs⟩
  · simp only [rowsOf, Option.getD_some]
    calc (rs.filter (fun r => r.id != i)).length ≤ rs.length :=
          List.length_filter_le _ _
      _ ≤ 1 := by rw [← hrows]; exact slen
  · intro s hs
    simp only [rowsOf, Option.getD_some] at hs
    exact sid s (by rw [hrows]; exact List.mem_of_mem_filter hs)

theorem map_congr_mem {α β : Type} {f g : α → β} :
    ∀ {rs : List α}, (∀ r ∈ rs, f r = g r) → rs.map f = rs.map g
  | [], _ => rfl
  | a :: l, h => by
    simp only [List.map_cons]
    rw [h a (List.mem_cons_self a l), map_congr_mem (fun r hr => h r (List.mem_cons_of_mem a hr))]

theorem pairwise_imp_mem {α : Type} {R S : α → α → Prop} :
    ∀ {l : List α}, (∀ x ∈ l, ∀ y ∈ l, R x y → S x y) → l.Pairwise R → l.Pairwise S
  | [], _, _ => List.Pairwise.nil
  | a :: l, h, hp => by
    obtain ⟨hhead, htail⟩ := List.pairwise_cons.1 hp
    refine List.pairwise_cons.2 ⟨?_, ?_⟩
    · intro y hy
      exact h a (List.mem_cons_self a l) y (List.mem_cons_of_mem a hy) (hhead y hy)
    · exact pairwise_imp_mem
        (fun x hx y hy => h x (List.mem_cons_of_mem a hx) y (List.mem_cons_of_mem a hy)) htail

theorem updateBatch_inv {db db' : DB} {i : Nat} {b : Batch}
    (h : updateBatch db i b = .ok db') (hI : Inv db) : Inv db' := by
  rcases updateBatch_ok h with rfl | ⟨rs, hc, hchk, hfk, hcase, rfl⟩
  · exact hI
  obtain ⟨bok, refs, slen, sid, bids, invs⟩ := hI
  obtain ⟨f1, f2, f3, f4, f5, f6, f7, f8, f9, f10⟩ := refs
  have hrows : rowsOf db.batches = rs := rows_of_eq hc
  have hnodup : rs.Pairwise (fun x y => x.id ≠ y.id) := by
    rw [hrows] at bids
    exact (List.pairwise_map ).1 bids
  refine ⟨?_, ⟨f1, ?_, f3, f4, f5, f6, ?_, f8, f9, f10⟩, slen, sid, ?_, invs⟩
  · intro r' hr'
    simp only [rowsOf, Option.getD_some] at hr'
    obtain ⟨r, hr, rfl⟩ := List.mem_map.1 hr'
    by_cases hid : r.id = i
    · simp only [if_pos hid]
      exact hchk
    · simp only [if_neg hid]
      exact bok r (by rw [hrows]; exact hr)
  · intro r' hr'
    simp only [rowsOf, Option.getD_some] at hr'
    obtain ⟨r, hr, rfl⟩ := List.mem_map.1 hr'
    by_cases hid : r.id = i
    · simp only [if_pos hid]
      exact hfk
    · simp only [if_neg hid]
      exact f2 r (by rw [hrows]; exact hr)
  · intro it hit
    have hold := f7 it hit
    rw [hrows] at hold
    rw [hasId_iff] at hold
    obtain ⟨r, hr, hrid⟩ := hold
    simp only [rowsOf, Option.getD_some]
    rw [hasId_iff]
    refine ⟨(if r.id = i then b else r), List.mem_map_of_mem _ hr, ?_⟩
    by_cases hid : r.id = i
    · rw [if_pos hid]
      rcases hcase with hbi | ⟨hnb, hni⟩
      · rw [hbi, ← hid]
        exact hrid
      · have hitne : it.batch_id ≠ i := (hasId_eq_false _ _ _).1 hni it hit
        exact absurd (hrid.symm.trans hid) hitne
    · rw [if_neg hid]
      exact hrid
  · simp only [rowsOf, Option.getD_some]
    rw [List.map_map]
    rcases hcase with hbi | ⟨hnb, hni⟩
    · have heq : rs.map (Batch.id ∘ fun r => if r.id = i then b else r) = rs.map Batch.id := by
        apply map_congr_mem
        intro r hr
        by_cases hid : r.id = i
        · simp [Function.comp, hid, hbi]
        · simp [Function.comp, hid]
      rw [heq, ← hrows]
      exact bids
    · exact (List.pairwise_map ).2 (pairwise_imp_mem (fun x hx y hy hxy => by
        by_cases hxi : x.id = i <;> by_cases hyi : y.id = i
        · exact absurd (hxi.trans hyi.symm) hxy
        · simp only [Function.comp, if_pos hxi, if_neg hyi]
          intro hby
          have : hasId Batch.id rs b.id = true := (hasId_iff _ _ _).2 ⟨y, hy, hby.symm⟩
          rw [hnb] at this
          cases this
        · simp only [Function.comp, if_neg hxi, if_pos hyi]
          intro hxb
          have : hasId Batch.id rs b.id = true := (hasId_iff _ _ _).2 ⟨x, hx, hxb⟩
          rw [hnb] at this
          cases this
        · simpa [Function.comp, if_neg hxi, if_neg hyi] using hxy) hnodup)

theorem updateSettings_inv {now : String} {db db' : DB} {p : SettingsPatch}
    (h : updateSettings now db p = .ok db') (hI : Inv db) : Inv db' := by
  obtain ⟨rs, hc, hone, rfl⟩ := updateSettings_ok h
  obtain ⟨bok, refs, slen, sid, bids, invs⟩ := hI
  obtain ⟨f1, f2, f3, f4, f5, f6, f7, f8, f9, f10⟩ := refs
  have hrows : rowsOf db.pharmacy_settings = rs := rows_of_eq hc
  refine ⟨bok, ⟨f1, f2, f3, f4, f5, f6, f7, f8, f9, f10⟩, ?_, ?_, bids, invs⟩
  · simp only [rowsOf, Option.getD_some, List.length_map]
    rw [← hrows]
    exact slen
  · intro s hs
    simp only [rowsOf, Option.getD_some] at hs
    obtain ⟨r, hr, rfl⟩ := List.mem_map.1 hs
    rw [patchRow_id]
    exact sid r (by rw [hrows]; exact hr)

theorem seedGstSlab_inv {db db' : DB} {q : Rat} {d : String}
    (h : seedGstSlab db q d = .ok db') (hI : Inv db) : Inv db' := by
  obtain ⟨rs, hc, hcase⟩ := seedGstSlab_ok h
  rcases hcase with ⟨-, rfl⟩ | ⟨-, rfl⟩
  · exact hI
  obtain ⟨bok, refs, slen, sid, bids, invs⟩ := hI
  obtain ⟨f1, f2, f3, f4, f5, f6, f7, f8, f9, f10⟩ := refs
  have hrows : rowsOf db.gst_slabs = rs := rows_of_eq hc
  refine ⟨bok, ⟨?_, f2, f3, f4, f5, f6, f7, f8, f9, f10⟩, slen, sid, bids, invs⟩
  intro m hm
  have hold := f1 m hm
  rw [hrows] at hold
  simpa [rowsOf] using hasId_append GstSlab.id rs [seedSlabRow rs q d] m.gst_slab_id hold

theorem seedUser_inv {db db' : DB} {un pw fn rl : String} {ac : Int} {now : String}
    (h : seedUser db un pw fn rl ac now = .ok db') (hI : Inv db) : Inv db' := by
  obtain ⟨rs, hc, hcase⟩ := seedUser_ok h
  rcases hcase with rfl | rfl
  · exact hI
  obtain ⟨bok, refs, slen, sid, bids, invs⟩ := hI
  obtain ⟨f1, f2, f3, f4, f5, f6, f7, f8, f9, f10⟩ := refs
  have hrows : rowsOf db.users = rs := rows_of_eq hc
  refine ⟨bok, ⟨f1, f2, f3, ?_, f5, f6, f7, f8, f9, f10⟩, slen, sid, bids, invs⟩
  intro s hs
  have hold := f4 s hs
  rw [hrows] at hold
  simpa [rowsOf] using
    hasId_append UserRow.id rs [seedUserRow rs un pw fn rl ac now] s.user_id hold

theorem seedSettings_inv {db db' : DB} {i : Nat} {nm addr ph g d st now : String}
    (h : seedSettings db i nm addr ph g d st now = .ok db') (hI : Inv db) : Inv db' := by
  obtain ⟨rs, hc, hcase⟩ := seedSettings_ok h
  rcases hcase with rfl | ⟨hdup, hone, rfl⟩
  · exact hI
  obtain ⟨bok, refs, slen, sid, bids, invs⟩ := hI
  obtain ⟨f1, f2, f3, f4, f5, f6, f7, f8, f9, f10⟩ := refs
  have hrows : rowsOf db.pharmacy_settings = rs := rows_of_eq hc
  have hrs_nil : rs = [] := by
    cases hrsc : rs with
    | nil => rfl
    | cons r rest =>
      have hr1 : r.id = 1 := by
        apply sid
        rw [hrows, hrsc]
        exact List.mem_cons_self r rest
      have hx : hasId PharmacySettings.id rs i = true := by
        rw [hasId_iff]
        exact ⟨r, by rw [hrsc]; exact List.mem_cons_self r rest, by rw [hr1, hone]⟩
      rw [hdup] at hx
      cases hx
  subst hrs_nil
  refine ⟨bok, ⟨f1, f2, f3, f4, f5, f6, f7, f8, f9, f10⟩, ?_, ?_, bids, invs⟩
  · simp [rowsOf]
  · intro s hs
    simp only [rowsOf, Option.getD_some, List.nil_append, List.mem_singleton] at hs
    rw [hs, seedSettingsRow]
    exact hone

theorem migration2_parts {now : String} {db db' : DB}
    (h : migration2 now db = .ok db') :
    ∃ d1 d2 d3 d4 d5,
      seedGstSlab db 0 "GST Exempt (0%)" = .ok d1 ∧
      seedGstSlab d1 5 "GST 5% (Most medicines post Sep 2025)" = .ok d2 ∧
      seedGstSlab d2 12 "GST 12%" = .ok d3 ∧
      seedGstSlab d3 18 "GST 18%" = .ok d4 ∧
      seedUser d4 "admin"
        "$2a$10$N9qo8uLOickgx2ZMRZoMyeIjZAgcfl7p92ldGxad68LJZdL17lhWy"
        "Administrator" "admin" 1 now = .ok d5 ∧
      seedSettings d5 1 "My Pharmacy" "123 Main Street" "0000000000" "" "" "" now =
        .ok db' := by
  simp only [migration2, bind] at h
  obtain ⟨d1, h1, h⟩ := except_bind_ok h
  obtain ⟨d2, h2, h⟩ := except_bind_ok h
  obtain ⟨d3, h3, h⟩ := except_bind_ok h
  obtain ⟨d4, h4, h⟩ := except_bind_ok h
  obtain ⟨d5, h5, h⟩ := except_bind_ok h
  exact ⟨d1, d2, d3, d4, d5, h1, h2, h3, h4, h5, h⟩

theorem migration2_inv {now : String} {db db' : DB}
    (h : migration2 now db = .ok db') (hI : Inv db) : Inv db' := by
  obtain ⟨d1, d2, d3, d4, d5, h1, h2, h3, h4, h5, h6⟩ := migration2_parts h
  exact seedSettings_inv h6 (seedUser_inv h5 (seedGstSlab_inv h4 (seedGstSlab_inv h3
    (seedGstSlab_inv h2 (seedGstSlab_inv h1 hI)))))

theorem seedGstSlab_rate_present {db db' : DB} {q : Rat} {d : String}
    (h : seedGstSlab db q d = .ok db') :
    (rowsOf db'.gst_slabs).any (fun r => r.rate == q) = true := by
  obtain ⟨rs, hc, hcase⟩ := seedGstSlab_ok h
  rcases hcase with ⟨hp, rfl⟩ | ⟨-, rfl⟩
  · rw [rows_of_eq hc]
    exact hp
  · simp [rowsOf, List.any_append, seedSlabRow]

theorem seedGstSlab_pres_rate {db db' : DB} {q q' : Rat} {d : String}
    (h : seedGstSlab db q d = .ok db')
    (hp : (rowsOf db.gst_slabs).any (fun r => r.rate == q') = true) :
    (rowsOf db'.gst_slabs).any (fun r => r.rate == q') = true := by
  obtain ⟨rs, hc, hcase⟩ := seedGstSlab_ok h
  rcases hcase with ⟨-, rfl⟩ | ⟨-, rfl⟩
  · exact hp
  · rw [rows_of_eq hc] at hp
    simp [rowsOf, List.any_append, hp]

theorem seedGstSlab_frame {db db' : DB} {q : Rat} {d : String}
    (h : seedGstSlab db q d = .ok db') :
    db'.users = db.users ∧ db'.pharmacy_settings = db.pharmacy_settings := by
  obtain ⟨rs, hc, hcase⟩ := seedGstSlab_ok h
  rcases hcase with ⟨-, rfl⟩ | ⟨-, rfl⟩ <;> exact ⟨rfl, rfl⟩

theorem seedUser_frame {db db' : DB} {un pw fn rl : String} {ac : Int} {now : String}
    (h : seedUser db un pw fn rl ac now = .ok db') :
    db'.gst_slabs = db.gst_slabs ∧ db'.pharmacy_settings = db.pharmacy_settings := by
  obtain ⟨rs, hc, hcase⟩ := seedUser_ok h
  rcases hcase with rfl | rfl <;> exact ⟨rfl, rfl⟩

theorem seedSettings_frame {db db' : DB} {i : Nat} {nm addr ph g d st now : String}
    (h : seedSettings db i nm addr ph g d st now = .ok db') :
    db'.gst_slabs = db.gst_slabs ∧ db'.users = db.users := by
  obtain ⟨rs, hc, hcase⟩ := seedSettings_ok h
  rcases hcase with rfl | ⟨-, -, rfl⟩ <;> exact ⟨rfl, rfl⟩

theorem seedUser_present {db db' : DB} {un pw fn rl : String} {ac : Int} {now : String}
    (h : seedUser db un pw fn rl ac now = .ok db')
    (hrl : rl = "admin" ∨ rl = "pharmacist" ∨ rl = "cashier") :
    (rowsOf db'.users).any (fun r => r.username == un) = true := by
  cases hc : db.users with
  | none => simp [seedUser, hc] at h
  | some rs =>
    simp only [seedUser, hc] at h
    by_cases hdup : (rs.any fun r => r.username == un) = true
    · rw [if_pos hdup] at h
      have hdb : db' = db := by simpa [eq_comm] using h
      rw [hdb, rows_of_eq hc]
      exact hdup
    · rw [if_neg hdup, if_neg (not_not_intro hrl)] at h
      simp only [Except.ok.injEq] at h
      subst h
      simp [rowsOf, List.any_append, seedUserRow]

theorem seedUser_skip {db : DB} {un : String} (pw fn rl : String) (ac : Int)
    (now : String)
    (hp : (rowsOf db.users).any (fun r => r.username == un) = true) :
    seedUser db un pw fn rl ac now = .ok db := by
  have hne : rowsOf db.users ≠ [] := by
    intro hnil
    rw [hnil] at hp
    simp at hp
  have hsome := some_of_rows_ne_nil hne
  rw [seedUser, hsome]
  simp [hp]

theorem seedSettings_present {db db' : DB} {nm addr ph g d st now : String}
    (h : seedSettings db 1 nm addr ph g d st now = .ok db') :
    hasId PharmacySettings.id (rowsOf db'.pharmacy_settings) 1 = true := by
  cases hc : db.pharmacy_settings with
  | none => simp [seedSettings, hc] at h
  | some rs =>
    simp only [seedSettings, hc] at h
    split at h
    · next hdup =>
      have hdb : db' = db := by simpa [eq_comm] using h
      rw [hdb, rows_of_eq hc]
      exact hdup
    split at h
    · next hone => exact absurd trivial hone
    · next hone =>
      simp only [Except.ok.injEq] at h
      subst h
      simp only [rowsOf, Option.getD_some]
      rw [hasId_iff]
      exact ⟨seedSettingsRow 1 nm addr ph g d st now,
        List.mem_append_right rs (List.mem_singleton.2 rfl), rfl⟩

theorem seedSettings_skip {db : DB} (nm addr ph g d st now : String)
    (hp : hasId PharmacySettings.id (rowsOf db.pharmacy_settings) 1 = true) :
    seedSettings db 1 nm addr ph g d st now = .ok db := by
  have hne : rowsOf db.pharmacy_settings ≠ [] := by
    intro hnil
    rw [hnil] at hp
    simp [hasId] at hp
  have hsome := some_of_rows_ne_nil hne
  rw [seedSettings, hsome]
  simp [hp]

theorem migration2_idem {now now' : String} {db db' : DB}
    (h : migration2 now db = .ok db') : migration2 now' db' = .ok db' := by
  obtain ⟨d1, d2, d3, d4, d5, h1, h2, h3, h4, h5, h6⟩ := migration2_parts h
  obtain ⟨hu5, hs5⟩ := seedUser_frame h5
  obtain ⟨hg6, hu6⟩ := seedSettings_frame h6
  have p0 : (rowsOf db'.gst_slabs).any (fun r => r.rate == (0 : Rat)) = true := by
    rw [hg6, hu5]
    exact seedGstSlab_pres_rate h4 (seedGstSlab_pres_rate h3
      (seedGstSlab_pres_rate h2 (seedGstSlab_rate_present h1)))
  have p5 : (rowsOf db'.gst_slabs).any (fun r => r.rate == (5 : Rat)) = true := by
    rw [hg6, hu5]
    exact seedGstSlab_pres_rate h4 (seedGstSlab_pres_rate h3
      (seedGstSlab_rate_present h2))
  have p12 : (rowsOf db'.gst_slabs).any (fun r => r.rate == (12 : Rat)) = true := by
    rw [hg6, hu5]
    exact seedGstSlab_pres_rate h4 (seedGstSlab_rate_present h3)
  have p18 : (rowsOf db'.gst_slabs).any (fun r => r.rate == (18 : Rat)) = true := by
    rw [hg6, hu5]
    exact seedGstSlab_rate_present h4
  have pu : (rowsOf db'.users).any (fun r => r.username == "admin") = true := by
    rw [hu6]
    exact seedUser_present h5 (Or.inl rfl)
  have ps : hasId PharmacySettings.id (rowsOf db'.pharmacy_settings) 1 = true :=
    seedSettings_present h6
  have e1 := seedGstSlab_skip "GST Exempt (0%)" p0
  have e2 := seedGstSlab_skip "GST 5% (Most medicines post Sep 2025)" p5
  have e3 := seedGstSlab_skip "GST 12%" p12
  have e4 := seedGstSlab_skip "GST 18%" p18
  have e5 := seedUser_skip
    "$2a$10$N9qo8uLOickgx2ZMRZoMyeIjZAgcfl7p92ldGxad68LJZdL17lhWy"
    "Administrator" "admin" 1 now' pu
  have e6 := seedSettings_skip "My Pharmacy" "123 Main Street" "0000000000" "" "" ""
    now' ps
  simp only [migration2, bind, e1, e2, e3, e4, e5, Except.bind]
  exact e6

theorem recordSale_inv {now : String} {db db' : DB} {inp : SaleInput}
    {lines : List SaleLineInput} (h : recordSale now db inp lines = .ok db')
    (hI : Inv db) : Inv db' := by
  obtain ⟨st, hst, ps, hps, hps', hu, hg, hm, hcu, hsu, hsp, hrx, hbid, hbmed, hbchk,
    sale, ss, items, hss, hss', hinv, hinvoice, huid, hcid, huser, hcust, hgrand,
    hgst, hitems, hfks⟩ := recordSale_ok h
  obtain ⟨bok, refs, slen, sid, bids, invs⟩ := hI
  obtain ⟨f1, f2, f3, f4, f5, f6, f7, f8, f9, f10⟩ := refs
  have hrows_s : rowsOf db.sales = ss := rows_of_eq hss
  have hrows_s' : rowsOf db'.sales = ss ++ [sale] := rows_of_eq hss'
  have hrows_p : rowsOf db.pharmacy_settings = ps := rows_of_eq hps
  have hrows_p' : rowsOf db'.pharmacy_settings = ps.map (bumpRow now) :=
    rows_of_eq hps'
  refine ⟨?_, ⟨?_, ?_, ?_, ?_, ?_, ?_, ?_, ?_, ?_, ?_⟩, ?_, ?_, ?_, ?_⟩
  · exact hbchk bids bok
  · intro m hm'
    rw [hm] at hm'
    rw [hg]
    exact f1 m hm'
  · intro b hb
    have hmem : b.medicine_id ∈ (rowsOf db'.batches).map Batch.medicine_id :=
      List.mem_map_of_mem _ hb
    rw [hbmed] at hmem
    obtain ⟨b0, hb0, hb0m⟩ := List.mem_map.1 hmem
    rw [hm, ← hb0m]
    exact f2 b0 hb0
  · intro p hp
    rw [hsp] at hp
    rw [hsu]
    exact f3 p hp
  · intro s hs
    rw [hrows_s'] at hs
    rw [hu]
    rcases List.mem_append.1 hs with hs' | hs'
    · exact f4 s (by rw [hrows_s]; exact hs')
    · rw [List.mem_singleton.1 hs']
      exact huser
  · intro s hs
    rw [hrows_s'] at hs
    rw [hcu]
    rcases List.mem_append.1 hs with hs' | hs'
    · exact f5 s (by rw [hrows_s]; exact hs')
    · rw [List.mem_singleton.1 hs']
      exact hcust
  · intro it hit
    rw [hitems] at hit
    rcases List.mem_append.1 hit with hit' | hit'
    · have hold := f6 it hit'
      rw [hrows_s] at hold
      rw [hrows_s']
      exact hasId_append Sale.id ss [sale] it.sale_id hold
    · exact (hfks it hit').1
  · intro it hit
    rw [hitems] at hit
    rcases List.mem_append.1 hit with hit' | hit'
    · have hold := f7 it hit'
      rw [hasId_map_eq Batch.id Batch.id (rowsOf db.batches) (rowsOf db'.batches)
        hbid it.batch_id]
      exact hold
    · exact (hfks it hit').2.1
  · intro it hit
    rw [hitems] at hit
    rw [hm]
    rcases List.mem_append.1 hit with hit' | hit'
    · exact f8 it hit'
    · exact (hfks it hit').2.2
  · intro p hp
    rw [hrx] at hp
    rw [hcu]
    exact f9 p hp
  · intro p hp
    rw [hrx] at hp
    have hold := f10 p hp
    rw [hrows_s] at hold
    refine optAll_mono p.sale_id (fun j hj => ?_) hold
    rw [hrows_s']
    exact hasId_append Sale.id ss [sale] j hj
  · rw [hrows_p', List.length_map, ← hrows_p]
    exact slen
  · intro s hs
    rw [hrows_p'] at hs
    obtain ⟨r, hr, rfl⟩ := List.mem_map.1 hs
    rw [bumpRow_id]
    exact sid r (by rw [hrows_p]; exact hr)
  · rw [hbid]
    exact bids
  · rw [hrows_s']
    simp only [List.map_append, List.map_cons, List.map_nil]
    rw [List.nodup_append]
    refine ⟨by rw [hrows_s] at invs; exact invs, List.nodup_singleton _, ?_⟩
    intro x hx
    simp only [List.mem_singleton]
    intro hxs
    rw [hxs] at hx
    obtain ⟨r, hr, hrn⟩ := List.mem_map.1 hx
    have hx2 : ss.any (fun r => r.invoice_number == sale.invoice_number) = true := by
      simp only [List.any_eq_true]
      exact ⟨r, hr, by simpa using hrn⟩
    rw [hinv] at hx2
    cases hx2

theorem empty_inv : Inv DB.empty := by
  refine ⟨?_, ⟨?_, ?_, ?_, ?_, ?_, ?_, ?_, ?_, ?_, ?_⟩, ?_, ?_, ?_, ?_⟩ <;>
    simp [DB.empty, rowsOf]

theorem step_inv {db db' : DB} (h : Step db db') (hI : Inv db) : Inv db' := by
  cases h with
  | m1 db => exact migration1_inv hI
  | m2 now db db' h => exact migration2_inv h hI
  | insUser db db' u h => exact insertUser_inv h hI
  | insGstSlab db db' g h => exact insertGstSlab_inv h hI
  | insMedicine db db' m h => exact insertMedicine_inv h hI
  | insBatch db db' b h => exact insertBatch_inv h hI
  | insCustomer db db' c h => exact insertCustomer_inv h hI
  | insSupplier db db' s h => exact insertSupplier_inv h hI
  | insSupplierPayment db db' p h => exact insertSupplierPayment_inv h hI
  | insSale db db' s h => exact insertSale_inv h hI
  | insSaleItem db db' it h => exact insertSaleItem_inv h hI
  | insPrescription db db' p h => exact insertPrescription_inv h hI
  | insSettings db db' s h => exact insertSettings_inv h hI
  | delGstSlab db db' i h => exact deleteGstSlab_inv h hI
  | delMedicine db db' i h => exact deleteMedicine_inv h hI
  | delBatch db db' i h => exact deleteBatch_inv h hI
  | delUser db db' i h => exact deleteUser_inv h hI
  | delCustomer db db' i h => exact deleteCustomer_inv h hI
  | delSupplier db db' i h => exact deleteSupplier_inv h hI
  | delSupplierPayment db db' i h => exact deleteSupplierPayment_inv h hI
  | delSale db db' i h => exact deleteSale_inv h hI
  | delSaleItem db db' i h => exact deleteSaleItem_inv h hI
  | delPrescription db db' i h => exact deletePrescription_inv h hI
  | delSettings db db' i h => exact deleteSettings_inv h hI
  | updBatch db db' i b h => exact updateBatch_inv h hI
  | updSettings now db db' p h => exact updateSettings_inv h hI
  | record now db db' inp ls h => exact recordSale_inv h hI

theorem reachable_inv {db : DB} (h : Reachable db) : Inv db := by
  induction h with
  | refl => exact empty_inv
  | tail hsteps hstep ih => exact step_inv hstep ih

theorem appStep_step {db db' : DB} (h : AppStep db db') : Step db db' := by
  cases h with
  | m1 db => exact Step.m1 db
  | m2 now db db' h => exact Step.m2 now db db' h
  | insUser db db' u h => exact Step.insUser db db' u h
  | insGstSlab db db' g h => exact Step.insGstSlab db db' g h
  | insMedicine db db' m h => exact Step.insMedicine db db' m h
  | insBatch db db' b h => exact Step.insBatch db db' b h
  | insCustomer db db' c h => exact Step.insCustomer db db' c h
  | insSupplier db db' s h => exact Step.insSupplier db db' s h
  | insSupplierPayment db db' p h => exact Step.insSupplierPayment db db' p h
  | insPrescription db db' p h => exact Step.insPrescription db db' p h
  | delGstSlab db db' i h => exact Step.delGstSlab db db' i h
  | delMedicine db db' i h => exact Step.delMedicine db db' i h
  | delBatch db db' i h => exact Step.delBatch db db' i h
  | delUser db db' i h => exact Step.delUser db db' i h
  | delCustomer db db' i h => exact Step.delCustomer db db' i h
  | delSupplier db db' i h => exact Step.delSupplier db db' i h
  | delSupplierPayment db db' i h => exact Step.delSupplierPayment db db' i h
  | delSaleItem db db' i h => exact Step.delSaleItem db db' i h
  | delPrescription db db' i h => exact Step.delPrescription db db' i h
  | updBatch db db' i b h => exact Step.updBatch db db' i b h
  | updSettings now db db' p h => exact Step.updSettings now db db' p h
  | record now db db' inp ls h => exact Step.record now db db' inp ls h

theorem appReachable_reachable {db : DB} (h : AppReachable db) : Reachable db := by
  induction h with
  | refl => exact Relation.ReflTransGen.refl
  | tail hsteps hstep ih => exact Relation.ReflTransGen.tail ih (appStep_step hstep)

theorem seedGstSlab_totals {db db' : DB} {q : Rat} {d : String}
    (h : seedGstSlab db q d = .ok db') (hT : SalesTotalsOk db) : SalesTotalsOk db' := by
  obtain ⟨rs, hc, hcase⟩ := seedGstSlab_ok h
  rcases hcase with ⟨-, rfl⟩ | ⟨-, rfl⟩ <;> exact hT

theorem seedUser_totals {db db' : DB} {un pw fn rl : String} {ac : Int} {now : String}
    (h : seedUser db un pw fn rl ac now = .ok db') (hT : SalesTotalsOk db) :
    SalesTotalsOk db' := by
  obtain ⟨rs, hc, hcase⟩ := seedUser_ok h
  rcases hcase with rfl | rfl <;> exact hT

theorem seedSettings_totals {db db' : DB} {i : Nat} {nm addr ph g d st now : String}
    (h : seedSettings db i nm addr ph g d st now = .ok db') (hT : SalesTotalsOk db) :
    SalesTotalsOk db' := by
  obtain ⟨rs, hc, hcase⟩ := seedSettings_ok h
  rcases hcase with rfl | ⟨-, -, rfl⟩ <;> exact hT

theorem migration2_totals {now : String} {db db' : DB}
    (h : migration2 now db = .ok db') (hT : SalesTotalsOk db) : SalesTotalsOk db' := by
  obtain ⟨d1, d2, d3, d4, d5, h1, h2, h3, h4, h5, h6⟩ := migration2_parts h
  exact seedSettings_totals h6 (seedUser_totals h5 (seedGstSlab_totals h4
    (seedGstSlab_totals h3 (seedGstSlab_totals h2 (seedGstSlab_totals h1 hT)))))

theorem recordSale_totals {now : String} {db db' : DB} {inp : SaleInput}
    {lines : List SaleLineInput} (h : recordSale now db inp lines = .ok db')
    (hT : SalesTotalsOk db) : SalesTotalsOk db' := by
  obtain ⟨st, hst, ps, hps, hps', hu, hg, hm, hcu, hsu, hsp, hrx, hbid, hbmed, hbchk,
    sale, ss, items, hss, hss', hinv, hinvoice, huid, hcid, huser, hcust, hgrand,
    hgst, hitems, hfks⟩ := recordSale_ok h
  intro s hs
  rw [rows_of_eq hss'] at hs
  rcases List.mem_append.1 hs with hs' | hs'
  · exact hT s (by rw [rows_of_eq hss]; exact hs')
  · rw [List.mem_singleton.1 hs']
    exact ⟨hgrand, hgst⟩

theorem appStep_totals {db db' : DB} (h : AppStep db db') (hT : SalesTotalsOk db) :
    SalesTotalsOk db' := by
  cases h with
  | m1 db => exact hT
  | m2 now db db' h => exact migration2_totals h hT
  | insUser db db' u h =>
    obtain ⟨rs, hc, rfl⟩ := insertUser_ok h
    exact hT
  | insGstSlab db db' g h =>
    obtain ⟨rs, hc, rfl⟩ := insertGstSlab_ok h
    exact hT
  | insMedicine db db' m h =>
    obtain ⟨rs, hc, -, rfl⟩ := insertMedicine_ok h
    exact hT
  | insBatch db db' b h =>
    obtain ⟨rs, hc, -, -, -, rfl⟩ := insertBatch_ok h
    exact hT
  | insCustomer db db' c h =>
    obtain ⟨rs, hc, rfl⟩ := insertCustomer_ok h
    exact hT
  | insSupplier db db' s h =>
    obtain ⟨rs, hc, rfl⟩ := insertSupplier_ok h
    exact hT
  | insSupplierPayment db db' p h =>
    obtain ⟨rs, hc, -, rfl⟩ := insertSupplierPayment_ok h
    exact hT
  | insPrescription db db' p h =>
    obtain ⟨rs, hc, -, -, rfl⟩ := insertPrescription_ok h
    exact hT
  | delGstSlab db db' i h =>
    rcases deleteGstSlab_ok h with rfl | ⟨rs, hc, -, rfl⟩ <;> exact hT
  | delMedicine db db' i h =>
    rcases deleteMedicine_ok h with rfl | ⟨rs, hc, -, -, rfl⟩ <;> exact hT
  | delBatch db db' i h =>
    rcases deleteBatch_ok h with rfl | ⟨rs, hc, -, rfl⟩ <;> exact hT
  | delUser db db' i h =>
    rcases deleteUser_ok h with rfl | ⟨rs, hc, -, rfl⟩ <;> exact hT
  | delCustomer db db' i h =>
    rcases deleteCustomer_ok h with rfl | ⟨rs, hc, -, -, rfl⟩ <;> exact hT
  | delSupplier db db' i h =>
    rcases deleteSupplier_ok h with rfl | ⟨rs, hc, -, rfl⟩ <;> exact hT
  | delSupplierPayment db db' i h =>
    obtain ⟨rs, hc, rfl⟩ := deleteSupplierPayment_ok h
    exact hT
  | delSaleItem db db' i h =>
    obtain ⟨rs, hc, rfl⟩ := deleteSaleItem_ok h
    exact hT
  | delPrescription db db' i h =>
    obtain ⟨rs, hc, rfl⟩ := deletePrescription_ok h
    exact hT
  | updBatch db db' i b h =>
    rcases updateBatch_ok h with rfl | ⟨rs, hc, -, -, -, rfl⟩ <;> exact hT
  | updSettings now db db' p h =>
    obtain ⟨rs, hc, -, rfl⟩ := updateSettings_ok h
    exact hT
  | record now db db' inp ls h => exact recordSale_totals h hT

theorem appReachable_totals {db : DB} (h : AppReachable db) : SalesTotalsOk db := by
  induction h with
  | refl => intro s hs; simp [DB.empty, rowsOf] at hs
  | tail hsteps hstep ih => exact appStep_totals hstep ih

theorem patchRow_next (now : String) (p : SettingsPatch) (s : PharmacySettings) :
    (patchRow now p s).next_invoice_number = s.next_invoice_number := by
  unfold patchRow applyPatch
  split <;> rfl

theorem find1_map {f : PharmacySettings → PharmacySettings}
    (hf : ∀ s, (f s).id = s.id) :
    ∀ rs : List PharmacySettings,
      (rs.map f).find? (fun s => s.id == 1) = (rs.find? (fun s => s.id == 1)).map f
  | [] => rfl
  | a :: l => by
    simp only [List.map_cons, List.find?_cons, hf a]
    cases ha : (a.id == 1) with
    | true => rfl
    | false => exact find1_map hf l

theorem nextInvoice_of_rows {db : DB} {rs : List PharmacySettings}
    (h : db.pharmacy_settings = some rs) :
    nextInvoice db = (match rs.find? (fun s => s.id == 1) with
      | none => 0
      | some s => s.next_invoice_number) := by
  unfold nextInvoice
  rw [h]
  rfl

theorem updateSettings_nextInvoice {now : String} {db db' : DB} {p : SettingsPatch}
    (h : updateSettings now db p = .ok db') : nextInvoice db' = nextInvoice db := by
  obtain ⟨rs, hc, -, rfl⟩ := updateSettings_ok h
  rw [nextInvoice_of_rows hc, nextInvoice_of_rows
    (show DB.pharmacy_settings { db with pharmacy_settings := some (rs.map (patchRow now p)) } =
      some (rs.map (patchRow now p)) from rfl)]
  rw [find1_map (patchRow_id now p) rs]
  cases hf : rs.find? (fun s => s.id == 1) with
  | none => rfl
  | some s =>
    simp only [Option.map_some]
    exact patchRow_next now p s

theorem recordSale_nextInvoice {now : String} {db db' : DB} {inp : SaleInput}
    {lines : List SaleLineInput} (h : recordSale now db inp lines = .ok db') :
    nextInvoice db' = nextInvoice db + 1 := by
  obtain ⟨st, hst, ps, hps, hps', -, -, -, -, -, -, -, -, -, -, -, -⟩ := recordSale_ok h
  have hrp : rowsOf db.pharmacy_settings = ps := rows_of_eq hps
  have hst' : ps.find? (fun s => s.id == 1) = some st := by rw [← hrp]; exact hst
  have hst1 : st.id = 1 := by
    have := List.find?_some hst
    simpa using this
  rw [nextInvoice_of_rows hps, nextInvoice_of_rows hps',
    find1_map (bumpRow_id now) ps, hst']
  simp only [Option.map_some]
  simp [bumpRow, hst1]

theorem migration2_nextInvoice {now : String} {db db' : DB}
    (h : migration2 now db = .ok db') : nextInvoice db ≤ nextInvoice db' := by
  obtain ⟨d1, d2, d3, d4, d5, h1, h2, h3, h4, h5, h6⟩ := migration2_parts h
  have e1 : nextInvoice d1 = nextInvoice db := by
    obtain ⟨rs, hc, hcase⟩ := seedGstSlab_ok h1
    rcases hcase with ⟨-, rfl⟩ | ⟨-, rfl⟩ <;> rfl
  have e2 : nextInvoice d2 = nextInvoice d1 := by
    obtain ⟨rs, hc, hcase⟩ := seedGstSlab_ok h2
    rcases hcase with ⟨-, rfl⟩ | ⟨-, rfl⟩ <;> rfl
  have e3 : nextInvoice d3 = nextInvoice d2 := by
    obtain ⟨rs, hc, hcase⟩ := seedGstSlab_ok h3
    rcases hcase with ⟨-, rfl⟩ | ⟨-, rfl⟩ <;> rfl
  have e4 : nextInvoice d4 = nextInvoice d3 := by
    obtain ⟨rs, hc, hcase⟩ := seedGstSlab_ok h4
    rcases hcase with ⟨-, rfl⟩ | ⟨-, rfl⟩ <;> rfl
  have e5 : nextInvoice d5 = nextInvoice d4 := by
    obtain ⟨rs, hc, hcase⟩ := seedUser_ok h5
    rcases hcase with rfl | rfl <;> rfl
  have e6 : nextInvoice d5 ≤ nextInvoice db' := by
    obtain ⟨rs, hc, hcase⟩ := seedSettings_ok h6
    rcases hcase with rfl | ⟨hdup, hone, rfl⟩
    · exact le_refl _
    · have hfind : rs.find? (fun s => s.id == 1) = none := by
        rw [List.find?_eq_none]
        intro x hx
        have := (hasId_eq_false _ _ _).1 hdup x hx
        simpa [hone] using this
      rw [nextInvoice_of_rows hc, nextInvoice_of_rows rfl]
      rw [hfind, List.find?_append, hfind]
      simp [List.find?_cons, seedSettingsRow]
  rw [← e1, ← e2, ← e3, ← e4, ← e5]
  exact e6

theorem appStep_nextInvoice {db db' : DB} (h : AppStep db db') :
    nextInvoice db ≤ nextInvoice db' := by
  cases h with
  | m1 db => exact le_refl _
  | m2 now db db' h => exact migration2_nextInvoice h
  | insUser db db' u h =>
    obtain ⟨rs, hc, rfl⟩ := insertUser_ok h
    exact le_refl _
  | insGstSlab db db' g h =>
    obtain ⟨rs, hc, rfl⟩ := insertGstSlab_ok h
    exact le_refl _
  | insMedicine db db' m h =>
    obtain ⟨rs, hc, -, rfl⟩ := insertMedicine_ok h
    exact le_refl _
  | insBatch db db' b h =>
    obtain ⟨rs, hc, -, -, -, rfl⟩ := insertBatch_ok h
    exact le_refl _
  | insCustomer db db' c h =>
    obtain ⟨rs, hc, rfl⟩ := insertCustomer_ok h
    exact le_refl _
  | insSupplier db db' s h =>
    obtain ⟨rs, hc, rfl⟩ := insertSupplier_ok h
    exact le_refl _
  | insSupplierPayment db db' p h =>
    obtain ⟨rs, hc, -, rfl⟩ := insertSupplierPayment_ok h
    exact le_refl _
  | insPrescription db db' p h =>
    obtain ⟨rs, hc, -, -, rfl⟩ := insertPrescription_ok h
    exact le_refl _
  | delGstSlab db db' i h =>
    rcases deleteGstSlab_ok h with rfl | ⟨rs, hc, -, rfl⟩ <;> exact le_refl _
  | delMedicine db db' i h =>
    rcases deleteMedicine_ok h with rfl | ⟨rs, hc, -, -, rfl⟩ <;> exact le_refl _
  | delBatch db db' i h =>
    rcases deleteBatch_ok h with rfl | ⟨rs, hc, -, rfl⟩ <;> exact le_refl _
  | delUser db db' i h =>
    rcases deleteUser_ok h with rfl | ⟨rs, hc, -, rfl⟩ <;> exact le_refl _
  | delCustomer db db' i h =>
    rcases deleteCustomer_ok h with rfl | ⟨rs, hc, -, -, rfl⟩ <;> exact le_refl _
  | delSupplier db db' i h =>
    rcases deleteSupplier_ok h with rfl | ⟨rs, hc, -, rfl⟩ <;> exact le_refl _
  | delSupplierPayment db db' i h =>
    obtain ⟨rs, hc, rfl⟩ := deleteSupplierPayment_ok h
    exact le_refl _
  | delSaleItem db db' i h =>
    obtain ⟨rs, hc, rfl⟩ := deleteSaleItem_ok h
    exact le_refl _
  | delPrescription db db' i h =>
    obtain ⟨rs, hc, rfl⟩ := deletePrescription_ok h
    exact le_refl _
  | updBatch db db' i b h =>
    rcases updateBatch_ok h with rfl | ⟨rs, hc, -, -, -, rfl⟩ <;> exact le_refl _
  | updSettings now db db' p h => exact le_of_eq (updateSettings_nextInvoice h).symm
  | record now db db' inp ls h =>
    rw [recordSale_nextInvoice h]
    omega

theorem appTrace_nextInvoice {db db' : DB} (h : Relation.ReflTransGen AppStep db db') :
    nextInvoice db ≤ nextInvoice db' := by
  induction h with
  | refl => exact le_refl _
  | tail hsteps hstep ih => exact le_trans ih (appStep_nextInvoice hstep)

/-- C1: in every reachable database state every batches row satisfies
quantity ≥ 0, 0 < selling_price_paise ≤ mrp_paise and
cost_price_paise ≥ 0; an INSERT violating one of the CHECK constraints
is rejected with an error, and an UPDATE violating one is either
rejected or matches no row and stores nothing. -/
theorem batches_check_invariant :
    (∀ db, Reachable db → ∀ b ∈ rowsOf db.batches,
      0 ≤ b.quantity ∧ 0 < b.selling_price_paise ∧
        b.selling_price_paise ≤ b.mrp_paise ∧ 0 ≤ b.cost_price_paise) ∧
    (∀ db b, ¬ batchChecks b → ∃ e, insertBatch db b = .error e) ∧
    (∀ db i b, ¬ batchChecks b →
      (∃ e, updateBatch db i b = .error e) ∨ updateBatch db i b = .ok db) := by
  refine ⟨?_, ?_, ?_⟩
  · intro db h b hb
    have hc := (reachable_inv h).batches_ok b hb
    unfold batchChecks at hc
    omega
  · intro db b hnc
    cases hr : insertBatch db b with
    | error e => exact ⟨e, rfl⟩
    | ok db' =>
      obtain ⟨-, -, hchk, -, -, -⟩ := insertBatch_ok hr
      exact absurd hchk hnc
  · intro db i b hnc
    cases hr : updateBatch db i b with
    | error e => exact Or.inl ⟨e, rfl⟩
    | ok db' =>
      rcases updateBatch_ok hr with rfl | ⟨-, -, hchk, -⟩
      · exact Or.inr rfl
      · exact absurd hchk hnc

/-- Witness for C1 at the example data: the reachable state with the
example batch, a rejected bad INSERT and a rejected bad UPDATE. -/
theorem batches_check_invariant_witness :
    (∀ b ∈ rowsOf dbBatch.batches,
      0 ≤ b.quantity ∧ 0 < b.selling_price_paise ∧
        b.selling_price_paise ≤ b.mrp_paise ∧ 0 ≤ b.cost_price_paise) ∧
    (∃ e, insertBatch dbBatch badBatch = .error e) ∧
    ((∃ e, updateBatch dbBatch 1 badBatch = .error e) ∨
      updateBatch dbBatch 1 badBatch = .ok dbBatch) :=
  ⟨batches_check_invariant.1 dbBatch
      (Relation.ReflTransGen.tail (Relation.ReflTransGen.tail
        (Relation.ReflTransGen.tail (Relation.ReflTransGen.tail
          Relation.ReflTransGen.refl (Step.m1 DB.empty))
          (Step.m2 "t0" (migration1 DB.empty) dbSeed rfl))
        (Step.insMedicine dbSeed dbMed med1 rfl))
        (Step.insBatch dbMed dbBatch batch1 rfl)),
    batches_check_invariant.2.1 dbBatch badBatch (by decide),
    batches_check_invariant.2.2 dbBatch 1 badBatch (by decide)⟩

/-- C2: in every state reachable through the application layer of the
spec, every committed sales row satisfies
grand_total = subtotal − discount + total_gst and
total_gst = total_cgst + total_sgst exactly. -/
theorem sales_totals_invariant :
    ∀ db, AppReachable db → ∀ s ∈ rowsOf db.sales,
      s.grand_total_paise = s.subtotal_paise - s.discount_paise + s.total_gst_paise ∧
      s.total_gst_paise = s.total_cgst_paise + s.total_sgst_paise :=
  fun _ h => appReachable_totals h

/-- Witness for C2: the committed example sale satisfies both equations. -/
theorem sales_totals_invariant_witness :
    sale1.grand_total_paise =
      sale1.subtotal_paise - sale1.discount_paise + sale1.total_gst_paise ∧
    sale1.total_gst_paise = sale1.total_cgst_paise + sale1.total_sgst_paise :=
  sales_totals_invariant dbSale
    (Relation.ReflTransGen.tail (Relation.ReflTransGen.tail
      (Relation.ReflTransGen.tail (Relation.ReflTransGen.tail
        Relation.ReflTransGen.refl (AppStep.m1 DB.empty))
        (AppStep.m2 "t0" (migration1 DB.empty) dbSeed rfl))
      (AppStep.insMedicine dbSeed dbMed med1 rfl))
      (AppStep.insBatch dbMed dbBatch batch1 rfl) |>.tail
      (AppStep.record "t3" dbBatch dbSale inp1 [line1] rfl))
    sale1 (by decide)

/-- C3: referential integrity holds in every reachable state (every
declared FOREIGN KEY points at an existing parent row), and deleting a
parent row that a child still references is rejected with a
foreign-key violation (restrict semantics, no cascade). -/
theorem referential_integrity :
    (∀ db, Reachable db → RefOk db) ∧
    (∀ db rs i, db.gst_slabs = some rs → hasId GstSlab.id rs i = true →
      hasId Medicine.gst_slab_id (rowsOf db.medicines) i = true →
      deleteGstSlab db i = .error .fkViolation) ∧
    (∀ db rs i, db.medicines = some rs → hasId Medicine.id rs i = true →
      (hasId Batch.medicine_id (rowsOf db.batches) i = true ∨
       hasId SaleItem.medicine_id (rowsOf db.sale_items) i = true) →
      deleteMedicine db i = .error .fkViolation) ∧
    (∀ db rs i, db.batches = some rs → hasId Batch.id rs i = true →
      hasId SaleItem.batch_id (rowsOf db.sale_items) i = true →
      deleteBatch db i = .error .fkViolation) ∧
    (∀ db rs i, db.users = some rs → hasId UserRow.id rs i = true →
      hasId Sale.user_id (rowsOf db.sales) i = true →
      deleteUser db i = .error .fkViolation) ∧
    (∀ db rs i, db.customers = some rs → hasId Customer.id rs i = true →
      ((rowsOf db.sales).any (fun s => s.customer_id == some i) = true ∨
       hasId Prescription.customer_id (rowsOf db.prescriptions) i = true) →
      deleteCustomer db i = .error .fkViolation) ∧
    (∀ db rs i, db.suppliers = some rs → hasId Supplier.id rs i = true →
      hasId SupplierPayment.supplier_id (rowsOf db.supplier_payments) i = true →
      deleteSupplier db i = .error .fkViolation) ∧
    (∀ db rs i, db.sales = some rs → hasId Sale.id rs i = true →
      (hasId SaleItem.sale_id (rowsOf db.sale_items) i = true ∨
       (rowsOf db.prescriptions).any (fun p => p.sale_id == some i) = true) →
      deleteSale db i = .error .fkViolation) := by
  refine ⟨fun db h => (reachable_inv h).refs, ?_, ?_, ?_, ?_, ?_, ?_, ?_⟩
  · intro db rs i hc hpk hchild
    simp only [deleteGstSlab, hc]
    rw [if_neg (not_not_intro hpk), if_pos hchild]
  · intro db rs i hc hpk hchild
    simp only [deleteMedicine, hc]
    rw [if_neg (not_not_intro hpk)]
    rcases hchild with h1 | h2
    · rw [if_pos h1]
    · by_cases hb : hasId Batch.medicine_id (rowsOf db.batches) i = true
      · rw [if_pos hb]
      · rw [if_neg hb, if_pos h2]
  · intro db rs i hc hpk hchild
    simp only [deleteBatch, hc]
    rw [if_neg (not_not_intro hpk), if_pos hchild]
  · intro db rs i hc hpk hchild
    simp only [deleteUser, hc]
    rw [if_neg (not_not_intro hpk), if_pos hchild]
  · intro db rs i hc hpk hchild
    simp only [deleteCustomer, hc]
    rw [if_neg (not_not_intro hpk)]
    rcases hchild with h1 | h2
    · rw [if_pos h1]
    · by_cases hb : ((rowsOf db.sales).any (fun s => s.customer_id == some i)) = true
      · rw [if_pos hb]
      · rw [if_neg hb, if_pos h2]
  · intro db rs i hc hpk hchild
    simp only [deleteSupplier, hc]
    rw [if_neg (not_not_intro hpk), if_pos hchild]
  · intro db rs i hc hpk hchild
    simp only [deleteSale, hc]
    rw [if_neg (not_not_intro hpk)]
    rcases hchild with h1 | h2
    · rw [if_pos h1]
    · by_cases hb : hasId SaleItem.sale_id (rowsOf db.sale_items) i = true
      · rw [if_pos hb]
      · rw [if_neg hb, if_pos h2]

/-- Witness for C3: the state after the example sale satisfies the
referential invariant, and deleting the referenced medicine is
restricted. -/
theorem referential_integrity_witness :
    RefOk dbSale ∧ deleteMedicine dbSale 1 = .error .fkViolation :=
  ⟨referential_integrity.1 dbSale
      (Relation.ReflTransGen.tail (Relation.ReflTransGen.tail
        (Relation.ReflTransGen.tail (Relation.ReflTransGen.tail
          Relation.ReflTransGen.refl (Step.m1 DB.empty))
          (Step.m2 "t0" (migration1 DB.empty) dbSeed rfl))
        (Step.insMedicine dbSeed dbMed med1 rfl))
        (Step.insBatch dbMed dbBatch batch1 rfl) |>.tail
        (Step.record "t3" dbBatch dbSale inp1 [line1] rfl)),
    referential_integrity.2.2.1 dbSale (rowsOf dbSale.medicines) 1 rfl
      (by decide) (Or.inl (by decide))⟩

/-- C4: in every reachable state the pharmacy_settings table holds at
most one row and that row's id is 1; inserting a row with id ≠ 1 is
rejected by the CHECK, and once the singleton exists any further insert
is rejected. -/
theorem settings_singleton :
    (∀ db, Reachable db → (rowsOf db.pharmacy_settings).length ≤ 1 ∧
      ∀ s ∈ rowsOf db.pharmacy_settings, s.id = 1) ∧
    (∀ db rs s, db.pharmacy_settings = some rs → s.id ≠ 1 →
      insertSettings db s = .error .checkViolation) ∧
    (∀ db s, Reachable db → rowsOf db.pharmacy_settings ≠ [] →
      ∃ e, insertSettings db s = .error e) := by
  refine ⟨?_, ?_, ?_⟩
  · intro db h
    exact ⟨(reachable_inv h).settings_len, (reachable_inv h).settings_id⟩
  · intro db rs s hc hne
    simp only [insertSettings, hc]
    rw [if_pos hne]
  · intro db s hreach hne
    have hsid := (reachable_inv hreach).settings_id
    obtain ⟨ps, hps⟩ : ∃ ps, db.pharmacy_settings = some ps :=
      ⟨_, some_of_rows_ne_nil hne⟩
    have hrows : rowsOf db.pharmacy_settings = ps := rows_of_eq hps
    by_cases hs1 : s.id = 1
    · have hpne : ps ≠ [] := by rw [← hrows]; exact hne
      have hdup : hasId PharmacySettings.id ps s.id = true := by
        cases hpl : ps with
        | nil => exact absurd hpl hpne
        | cons r rest =>
          rw [hasId_iff]
          refine ⟨r, List.mem_cons_self r rest, ?_⟩
          rw [hs1]
          apply hsid
          rw [hrows, hpl]
          exact List.mem_cons_self r rest
      refine ⟨.uniqueViolation, ?_⟩
      simp only [insertSettings, hps]
      rw [if_neg (not_not_intro hs1), if_pos hdup]
    · refine ⟨.checkViolation, ?_⟩
      simp only [insertSettings, hps]
      rw [if_pos hs1]

/-- Witness for C4 at the seeded state: the singleton shape, a rejected
id-2 insert, and a rejected duplicate insert. -/
theorem settings_singleton_witness :
    ((rowsOf dbSeed.pharmacy_settings).length ≤ 1 ∧
      ∀ s ∈ rowsOf dbSeed.pharmacy_settings, s.id = 1) ∧
    insertSettings dbSeed settings2 = .error .checkViolation ∧
    (∃ e, insertSettings dbSeed settings1 = .error e) :=
  ⟨settings_singleton.1 dbSeed
      (Relation.ReflTransGen.tail (Relation.ReflTransGen.tail
        Relation.ReflTransGen.refl (Step.m1 DB.empty))
        (Step.m2 "t0" (migration1 DB.empty) dbSeed rfl)),
    settings_singleton.2.1 dbSeed (rowsOf dbSeed.pharmacy_settings) settings2 rfl
      (by decide),
    settings_singleton.2.2 dbSeed settings1
      (Relation.ReflTransGen.tail (Relation.ReflTransGen.tail
        Relation.ReflTransGen.refl (Step.m1 DB.empty))
        (Step.m2 "t0" (migration1 DB.empty) dbSeed rfl))
      (by decide)⟩

/-- C5: in every state reachable through the application layer the
stored invoice numbers are pairwise distinct; a successful `recordSale`
advances the invoice counter by exactly one; and of two `recordSale`
calls in sequence — the writes are serialized per spec section 5 — the
later call always allocates a strictly larger invoice number than the
earlier one, so no two calls ever receive the same number. -/
theorem invoice_numbers_unique_increasing :
    (∀ db, AppReachable db →
      ((rowsOf db.sales).map Sale.invoice_number).Nodup) ∧
    (∀ now db db' inp lines, recordSale now db inp lines = .ok db' →
      nextInvoice db' = nextInvoice db + 1) ∧
    (∀ nowA nowB db dbA db2 dbB iA lsA iB lsB,
      recordSale nowA db iA lsA = .ok dbA →
      Relation.ReflTransGen AppStep dbA db2 →
      recordSale nowB db2 iB lsB = .ok dbB →
      nextInvoice db < nextInvoice db2) := by
  refine ⟨?_, ?_, ?_⟩
  · intro db h
    exact (reachable_inv (appReachable_reachable h)).invoices
  · intro now db db' inp lines h
    exact recordSale_nextInvoice h
  · intro nowA nowB db dbA db2 dbB iA lsA iB lsB hA htrace hB
    have h1 : nextInvoice dbA = nextInvoice db + 1 := recordSale_nextInvoice hA
    have h2 : nextInvoice dbA ≤ nextInvoice db2 := appTrace_nextInvoice htrace
    omega

/-- Witness for C5: the two example sales — distinct stored invoice
numbers, the counter stepping 1 → 2, and the second allocation strictly
above the first. -/
theorem invoice_numbers_witness :
    ((rowsOf dbSale2.sales).map Sale.invoice_number).Nodup ∧
    nextInvoice dbSale2 = nextInvoice dbSale + 1 ∧
    nextInvoice dbBatch < nextInvoice dbSale :=
  ⟨invoice_numbers_unique_increasing.1 dbSale2
      (Relation.ReflTransGen.tail (Relation.ReflTransGen.tail
        (Relation.ReflTransGen.tail (Relation.ReflTransGen.tail
          (Relation.ReflTransGen.tail Relation.ReflTransGen.refl
            (AppStep.m1 DB.empty))
          (AppStep.m2 "t0" (migration1 DB.empty) dbSeed rfl))
        (AppStep.insMedicine dbSeed dbMed med1 rfl))
        (AppStep.insBatch dbMed dbBatch batch1 rfl) |>.tail
        (AppStep.record "t3" dbBatch dbSale inp1 [line1] rfl))
        (AppStep.record "t4" dbSale dbSale2 inp1 [line2] rfl)),
    invoice_numbers_unique_increasing.2.1 "t4" dbSale dbSale2 inp1 [line2] rfl,
    invoice_numbers_unique_increasing.2.2 "t3" "t4" dbBatch dbSale dbSale dbSale2
      inp1 [line1] inp1 [line2] rfl Relation.ReflTransGen.refl rfl⟩

/-- C6: every sale line computed by the store satisfies
taxable_amount = unit_price * quantity − discount, equal CGST and SGST
halves with cgst_amount = round(taxable_amount * rate / 2 / 100) for the
full slab rate (twice the stored half-rate), and
line total = taxable_amount + cgst_amount + sgst_amount; on the spec's
example (10 units at 900 paise under the 5 percent slab, no discount)
the stored values are taxable 9000, CGST 225, SGST 225, sale GST total
450, line total 9450, and the batch quantity falls from 50 to 40. -/
theorem sale_item_tax_computation :
    (∀ db saleId itemId l it db1, buildLine db saleId itemId l = .ok (it, db1) →
      it.taxable_amount_paise =
        it.unit_price_paise * it.quantity - it.discount_paise ∧
      it.sgst_rate = it.cgst_rate ∧
      it.cgst_amount_paise =
        round ((it.taxable_amount_paise : ℚ) * (2 * it.cgst_rate) / 2 / 100) ∧
      it.sgst_amount_paise = it.cgst_amount_paise ∧
      it.total_paise = it.taxable_amount_paise + it.cgst_amount_paise +
        it.sgst_amount_paise) ∧
    (rowsOf dbSale.sale_items).map (fun it =>
      (it.taxable_amount_paise, it.cgst_amount_paise, it.sgst_amount_paise,
        it.total_paise)) = [(9000, 225, 225, 9450)] ∧
    (rowsOf dbSale.sales).map (fun s => (s.total_gst_paise, s.grand_total_paise)) =
      [(450, 9450)] ∧
    (rowsOf dbBatch.batches).map Batch.quantity = [50] ∧
    (rowsOf dbSale.batches).map Batch.quantity = [40] := by
  refine ⟨?_, by decide, by decide, by decide, by decide⟩
  intro db saleId itemId l it db1 h
  obtain ⟨b, hb, g, hg, hid, hq0, hqle, rfl, -⟩ := buildLine_ok h
  refine ⟨rfl, rfl, ?_, rfl, rfl⟩
  show gstHalfAmount (b.selling_price_paise * l.quantity - l.discount_paise) g.rate =
    round (((b.selling_price_paise * l.quantity - l.discount_paise : Int) : ℚ) *
      (2 * halfRate g.rate) / 2 / 100)
  rw [two_mul_halfRate, gstHalfAmount_eq_round]

/-- Witness for C6: the general line formulas applied to the concrete
example line. -/
theorem sale_item_tax_computation_witness :
    item1.taxable_amount_paise =
      item1.unit_price_paise * item1.quantity - item1.discount_paise ∧
    item1.sgst_rate = item1.cgst_rate ∧
    item1.cgst_amount_paise =
      round ((item1.taxable_amount_paise : ℚ) * (2 * item1.cgst_rate) / 2 / 100) ∧
    item1.sgst_amount_paise = item1.cgst_amount_paise ∧
    item1.total_paise = item1.taxable_amount_paise + item1.cgst_amount_paise +
      item1.sgst_amount_paise :=
  sale_item_tax_computation.1 dbBatch 1 1 line1 item1 dbLine1 rfl

/-- C7: running migration 2 on a freshly migrated empty database seeds
exactly four GST slabs with rates 0, 5, 12 and 18, exactly one user
(the active admin account) and exactly one settings row with id 1,
whatever timestamp the datetime(now) defaults produce. -/
theorem migration2_seeds :
    ∀ now : String, ∃ db',
      migration2 now (migration1 DB.empty) = .ok db' ∧
      (rowsOf db'.gst_slabs).map GstSlab.rate = [0, 5, 12, 18] ∧
      (rowsOf db'.gst_slabs).length = 4 ∧
      (rowsOf db'.users).map (fun u => (u.username, u.role, u.is_active)) =
        [("admin", "admin", 1)] ∧
      (rowsOf db'.users).length = 1 ∧
      (rowsOf db'.pharmacy_settings).map PharmacySettings.id = [1] ∧
      (rowsOf db'.pharmacy_settings).length = 1 := by
  intro now
  refine ⟨_, rfl, ?_, ?_, ?_, ?_, ?_, ?_⟩ <;> rfl

/-- C8: re-running either migration is a no-op — migration 1 is
idempotent on any state, and a second run of migration 2 (at any later
timestamp) returns the state of the first run unchanged. -/
theorem migrations_idempotent :
    (∀ db, migration1 (migration1 db) = migration1 db) ∧
    (∀ now now' db db', migration2 now db = .ok db' →
      migration2 now' db' = .ok db') :=
  ⟨fun _ => rfl, fun _ _ _ _ h => migration2_idem h⟩

/-- Witness for C8: the second run of migration 2 on the seeded example
state returns it unchanged. -/
theorem migrations_idempotent_witness : migration2 "t1" dbSeed = .ok dbSeed :=
  migrations_idempotent.2 "t0" "t1" (migration1 DB.empty) dbSeed rfl

/-- C9: sale_items declares no CHECK constraint, so once the three
foreign keys resolve and the primary key is fresh, a row with
non-positive quantity and negative monetary and tax columns is accepted
and stored as given. -/
theorem sale_items_no_numeric_checks :
    ∀ db rs it, db.sale_items = some rs →
      hasId SaleItem.id rs it.id = false →
      hasId Sale.id (rowsOf db.sales) it.sale_id = true →
      hasId Batch.id (rowsOf db.batches) it.batch_id = true →
      hasId Medicine.id (rowsOf db.medicines) it.medicine_id = true →
      (it.quantity ≤ 0 ∨ it.unit_price_paise < 0 ∨ it.discount_paise < 0 ∨
        it.cgst_amount_paise < 0 ∨ it.sgst_amount_paise < 0 ∨ it.total_paise < 0) →
      insertSaleItem db it = .ok { db with sale_items := some (rs ++ [it]) } := by
  intro db rs it hc hdup hfk1 hfk2 hfk3 hbad
  simp only [insertSaleItem, hc]
  rw [if_neg (by rw [hdup]; exact Bool.false_ne_true),
    if_neg (not_not_intro hfk1), if_neg (not_not_intro hfk2),
    if_neg (not_not_intro hfk3)]

/-- Witness for C9: the all-negative example row is accepted into the
state after the example sale. -/
theorem sale_items_no_numeric_checks_witness :
    insertSaleItem dbSale badItem =
      .ok { dbSale with sale_items := some (rowsOf dbSale.sale_items ++ [badItem]) } :=
  sale_items_no_numeric_checks dbSale (rowsOf dbSale.sale_items) badItem rfl
    (by decide) (by decide) (by decide) (by decide) (Or.inl (by decide))

/-- C10: a settings row created by the migration-2 INSERT (which omits
the invoice numbering and alert-threshold columns) carries the declared
defaults invoice_prefix "INV", next_invoice_number 1,
low_stock_threshold 20 and near_expiry_days 90 (and NULL email); the
seeded singleton is exactly that row, and the first allocated invoice
is number 1 under prefix "INV" (stored as "INV1", counter moving to 2). -/
theorem settings_defaults :
    (∀ db db' nm addr ph g d st now s,
      seedSettings db 1 nm addr ph g d st now = .ok db' →
      s ∈ rowsOf db'.pharmacy_settings → s ∉ rowsOf db.pharmacy_settings →
      PharmacySettings.invoice_prefix s = "INV" ∧ s.next_invoice_number = 1 ∧
        s.low_stock_threshold = 20 ∧ s.near_expiry_days = 90 ∧ s.email = none) ∧
    rowsOf dbSeed.pharmacy_settings = [settings1] ∧
    ( PharmacySettings.invoice_prefix settings1 = "INV" ∧
      settings1.next_invoice_number = 1 ∧ settings1.low_stock_threshold = 20 ∧
      settings1.near_expiry_days = 90) ∧
    (rowsOf dbSale.sales).map Sale.invoice_number = ["INV1"] ∧
    nextInvoice dbBatch = 1 ∧ nextInvoice dbSale = 2 := by
  refine ⟨?_, by decide, by decide, by decide, by decide, by decide⟩
  intro db db' nm addr ph g d st now s h hmem hnotmem
  obtain ⟨rs, hc, hcase⟩ := seedSettings_ok h
  have hrows : rowsOf db.pharmacy_settings = rs := rows_of_eq hc
  rcases hcase with rfl | ⟨-, -, rfl⟩
  · exact absurd hmem hnotmem
  · simp only [rowsOf, Option.getD_some] at hmem
    rcases List.mem_append.1 hmem with hs' | hs'
    · exact absurd (by rw [hrows]; exact hs') hnotmem
    · rw [List.mem_singleton.1 hs']
      exact ⟨rfl, rfl, rfl, rfl, rfl⟩

/-- Witness for C10: the defaults of the row created by the settings
seed on a fresh schema. -/
theorem settings_defaults_witness :
    PharmacySettings.invoice_prefix settings1 = "INV" ∧
    settings1.next_invoice_number = 1 ∧ settings1.low_stock_threshold = 20 ∧
    settings1.near_expiry_days = 90 ∧ settings1.email = none :=
  settings_defaults.1 (migration1 DB.empty) dbSet "My Pharmacy" "123 Main Street"
    "0000000000" "" "" "" "t0" settings1 rfl (by decide) (by decide)

end Pharma
